import Mathlib

/-!
# keepsake: lease-proportional renewal of a Vault token and a PKI certificate

A shallow embedding of `main.go`.

* `renewDuration` is embedded with its machine arithmetic: the int64 product
  `time.Duration(seconds) * time.Second`, the conversion to float64, the float64
  product with the constant `0.9` (round to nearest, ties to even) and the
  truncating conversion back to int64. Durations are integers counting nanoseconds.
* `main` is embedded as explicit event traces. Every call that leaves the
  program (the Vault client, `ioutil.WriteFile`, `exec.Cmd.Run`, `time.Sleep`,
  `log.Fatal`) appends an event, and the answers of the outside world are read
  from a script. The two loops of `main` never return, so a run is observed
  for as many iterations as the script has entries.
* The token renewal goroutine and the issuance loop are embedded separately,
  each with its own sequential trace.
-/

set_option maxRecDepth 100000

namespace Keepsake

/-! ## Machine arithmetic used by `renewDuration` -/

/-- Wrap of an integer into the int64 range, modulo `2 ^ 64`. -/
def wrapInt64 (x : Int) : Int :=
  (x + 2 ^ 63) % 2 ^ 64 - 2 ^ 63

/-- Number of binary digits of `n`; the first argument bounds the recursion
and is always given as `n` itself. -/
def bitLength : Nat → Nat → Nat
  | 0, _ => 0
  | fuel + 1, n => if n = 0 then 0 else bitLength fuel (n / 2) + 1

/-- Rounding of a natural number to 53 significant binary digits, to nearest
with ties to even: the float64 rounding of a magnitude. The result exceeds
53 digits only as a power of two, which float64 represents as well. -/
def roundSig53 (n : Nat) : Nat :=
  if bitLength n n ≤ 53 then n
  else
    let s := bitLength n n - 53
    let q := n / 2 ^ s
    let r := n % 2 ^ s
    if 2 ^ (s - 1) < r ∨ (r = 2 ^ (s - 1) ∧ q % 2 = 1) then (q + 1) * 2 ^ s else q * 2 ^ s

/-- The float64 nearest to the decimal constant `0.9` is `point9Num / 2 ^ 53`. -/
def point9Num : Nat := 8106479329266893

/-- Conversion `float64(x)` of an int64: the nearest float64, again an integer. -/
def float64OfInt (x : Int) : Int :=
  x.sign * ((roundSig53 x.natAbs : Nat) : Int)

/-- The expression `time.Duration(f * 0.9)` for an integer valued float64 `f`.
The exact product is `f * point9Num / 2 ^ 53`; float64 rounding of it is the
rounding of its numerator to 53 significant digits over the same denominator
(the product is far from the subnormal and overflow ranges), and the
conversion to int64 truncates toward zero. -/
def mulPoint9ToInt (f : Int) : Int :=
  f.sign * ((roundSig53 (f.natAbs * point9Num) / 2 ^ 53 : Nat) : Int)

/-- Nanoseconds in `time.Second`. -/
def second : Int := 1000000000

/-- Source `renewDuration(seconds int) time.Duration`, for a 64 bit `int`:
`time.Duration(float64(time.Duration(seconds)*time.Second) * 0.9)`.
The result counts nanoseconds. -/
def renewDuration (seconds : Int) : Int :=
  mulPoint9ToInt (float64OfInt (wrapInt64 (seconds * second)))

/-! ## Data of the Vault client and of the process -/

/-- Error value of a failed library call. -/
abbrev Err := String

/-- An entry of `Secret.Data` (Go `interface{}`): a string, or a value of
another dynamic type. -/
inductive Value where
  | str (s : String)
  | other (shown : String)
  deriving DecidableEq, Repr

/-- The fields of `vaultAPI.SecretAuth` that `main` reads. -/
structure SecretAuth where
  ClientToken : String
  LeaseDuration : Int
  deriving DecidableEq, Repr

/-- The fields of `vaultAPI.Secret` that `main` reads. `Auth` is a pointer in
the client library and may be nil. -/
structure Secret where
  LeaseDuration : Int
  Data : List (String × Value)
  Auth : Option SecretAuth
  deriving DecidableEq, Repr

/-- Result of a client call returning `(*Secret, error)`: an error, or a
secret pointer that may be nil. -/
abbrev CallResult := Except Err (Option Secret)

/-- The command line flags of `main`. `certTTL` counts nanoseconds. -/
structure Flags where
  vaultPKIPath : String
  vaultRole : String
  certCN : String
  certAltNames : String
  certIPSans : String
  certTTL : Int
  certFile : String
  keyFile : String
  caFile : String
  command : String
  showVersion : Bool

/-- The request map `vaultArgs`, in insertion order. -/
abbrev Args := List (String × String)

/-- Assignment `m[k] = v` on a Go map kept as an association list. -/
def Args.set (m : Args) (k v : String) : Args :=
  if m.any (fun p => p.1 == k) then m.map (fun p => if p.1 == k then (k, v) else p)
  else m ++ [(k, v)]

/-- The bytes of a Go string, as in the conversion `[]byte(s)`. -/
def goBytes (s : String) : List UInt8 :=
  s.toUTF8.data.toList

/-- The file system: path to content, a sequence of bytes. -/
abbrev FS := String → Option (List UInt8)

/-- How a call of `ioutil.WriteFile` ends. The library opens the file with
`O_WRONLY|O_CREATE|O_TRUNC`, writes the data and closes the file: a failure to
open leaves the file as it was, a later failure leaves the file truncated
with the first `written` bytes of the data in it. -/
inductive WriteOutcome where
  | ok
  | openFailed (e : Err)
  | writeFailed (written : Nat) (e : Err)
  deriving DecidableEq, Repr

/-- Library `ioutil.WriteFile(name, data, perm)`: the new file system and the
returned error. -/
def writeFile (fs : FS) (name data : String) : WriteOutcome → FS × Option Err
  | .ok => (fun p => if p = name then some (goBytes data) else fs p, none)
  | .openFailed e => (fs, some e)
  | .writeFailed n e =>
    (fun p => if p = name then some ((goBytes data).take n) else fs p, some e)

/-- How the process ends when it ends: `log.Fatal` (exit status 1), a run time
panic (nil dereference or failed type assertion), `os.Exit(1)` after the usage
text, or the return after `-version`. -/
inductive Exit where
  | fatal (msg : String)
  | runtimePanic
  | usage
  | version
  deriving DecidableEq, Repr

/-- What the program does to the outside world, in order. Calls carry their
arguments and whether they succeeded. -/
inductive Event where
  | setToken (token : String)
  | unwrap (token : String) (ok : Bool)
  | lookupSelf (ok : Bool)
  | renewSelf (increment : Int) (ok : Bool)
  | issue (path : String) (args : Args) (ok : Bool)
  | writeFile (name data : String) (perm : Nat) (ok : Bool)
  | exec (argv : List String) (ok : Bool)
  | sleep (d : Int)
  | exit (how : Exit)
  deriving DecidableEq, Repr

/-- Type assertion `secret.Data[key].(string)`: the string, or nothing when the
entry is absent or not a string (the program panics). -/
def stringField (s : Secret) (key : String) : Option String :=
  match s.Data.lookup key with
  | some (.str v) => some v
  | _ => none

/-- Expression `secret.Auth.LeaseDuration` on a secret pointer: nothing when the
pointer or its `Auth` is nil (the program panics). -/
def authLease (secret : Option Secret) : Option Int :=
  match secret with
  | some s =>
    match s.Auth with
    | some a => some a.LeaseDuration
    | none => none
  | none => none

/-- File mode `0640` passed to `ioutil.WriteFile`. -/
def filePerm : Nat := 0o640

/-! ## Start-up: flags, request, bootstrap of the token -/

/-- Answers of the outside world during start-up: the environment variable
`VAULT_TOKEN`, the error of `vaultAPI.NewClient`, the results of `Unwrap` (by
the token passed) and of `LookupSelf` (by the token the client holds), and
the library function `time.Duration.String`. -/
structure BootEnv where
  envToken : String
  newClient : Option Err
  unwrap : String → CallResult
  lookupSelf : String → CallResult
  durationString : Int → String

/-- Source `vaultPath := fmt.Sprintf("%s/issue/%s", *vaultPKIPath, *vaultRole)`. -/
def vaultPath (f : Flags) : String :=
  f.vaultPKIPath ++ "/issue/" ++ f.vaultRole

/-- Source `vaultArgs`: the map literal and the two conditional assignments. -/
def vaultArgs (durationString : Int → String) (f : Flags) : Args :=
  let a0 : Args := [("common_name", f.certCN), ("ip_sans", f.certIPSans)]
  let a1 : Args := if f.certAltNames ≠ "" then a0.set "alt_names" f.certAltNames else a0
  if f.certTTL ≠ 0 then a1.set "ttl" (durationString f.certTTL) else a1

/-- The required flags are all given (the test before `flag.Usage()`). -/
def Flags.valid (f : Flags) : Prop :=
  ¬ (f.certCN = "" ∨ f.certFile = "" ∨ f.keyFile = "" ∨ f.caFile = "")

instance (f : Flags) : Decidable f.valid := by
  unfold Flags.valid; exact inferInstance

/-- What both cycles start from: the request, the token held by the client and
the variable `secret` captured by the renewal goroutine. -/
structure Started where
  vaultPath : String
  vaultArgs : Args
  clientToken : String
  secret : Option Secret
  deriving DecidableEq, Repr

/-- Trace and outcome of start-up. -/
structure BootResult where
  events : List Event
  outcome : Except Exit Started

/-- Source `main` up to the start of the renewal goroutine. -/
def startup (f : Flags) (env : BootEnv) : BootResult :=
  if f.showVersion then ⟨[.exit .version], .error .version⟩
  else if f.certCN = "" ∨ f.certFile = "" ∨ f.keyFile = "" ∨ f.caFile = "" then
    ⟨[.exit .usage], .error .usage⟩
  else
    let path := vaultPath f
    let args := vaultArgs env.durationString f
    let token := env.envToken
    if token = "" then
      ⟨[.exit (.fatal "No token found")], .error (.fatal "No token found")⟩
    else
      match env.newClient with
      | some _ =>
        ⟨[.exit (.fatal "Unable to launch vault client")],
          .error (.fatal "Unable to launch vault client")⟩
      | none =>
        match env.unwrap token with
        | .error _ =>
          ⟨[.setToken token, .unwrap token false, .exit (.fatal "Unwrapping secret failed")],
            .error (.fatal "Unwrapping secret failed")⟩
        | .ok (some secret) =>
          match secret.Auth with
          | none =>
            ⟨[.setToken token, .unwrap token true, .exit .runtimePanic], .error .runtimePanic⟩
          | some a =>
            ⟨[.setToken token, .unwrap token true, .setToken a.ClientToken],
              .ok ⟨path, args, a.ClientToken, some secret⟩⟩
        | .ok none =>
          match env.lookupSelf token with
          | .error _ =>
            ⟨[.setToken token, .unwrap token true, .lookupSelf false,
                .exit (.fatal "Unable to look up token details")],
              .error (.fatal "Unable to look up token details")⟩
          | .ok secret =>
            ⟨[.setToken token, .unwrap token true, .lookupSelf true],
              .ok ⟨path, args, token, secret⟩⟩

/-! ## Token renewal goroutine -/

/-- Trace of a cycle and how it ended; `exit = none` when the cycle was still
running at the end of the script. -/
structure Run where
  events : List Event
  exit : Option Exit
  deriving DecidableEq, Repr

/-- The `for` loop of the renewal goroutine, entered with `renewalInterval`;
the script holds the results of the successive `RenewSelf(0)` calls. -/
def tokenLoop : Int → List CallResult → Run
  | renewalInterval, [] => ⟨[.sleep renewalInterval], none⟩
  | renewalInterval, r :: rest =>
    match r with
    | .error _ =>
      ⟨[.sleep renewalInterval, .renewSelf 0 false, .exit (.fatal "Unable to renew token")],
        some (.fatal "Unable to renew token")⟩
    | .ok newSecret =>
      match authLease newSecret with
      | none =>
        ⟨[.sleep renewalInterval, .renewSelf 0 true, .exit .runtimePanic], some .runtimePanic⟩
      | some lease =>
        let t := tokenLoop (renewDuration lease) rest
        ⟨.sleep renewalInterval :: .renewSelf 0 true :: t.events, t.exit⟩

/-- The renewal goroutine: `renewalInterval := renewDuration(secret.Auth.LeaseDuration)`,
then the loop. -/
def tokenCycle (secret : Option Secret) (script : List CallResult) : Run :=
  match authLease secret with
  | none => ⟨[.exit .runtimePanic], some .runtimePanic⟩
  | some lease => tokenLoop (renewDuration lease) script

/-! ## Certificate issuance -/

/-- Answers of the outside world during one call of the closure `renewal`:
the result of `vault.Logical().Write`, the outcomes of the three file writes,
the error of `cmd.Run()` and what the command does to the files. -/
structure IterEnv where
  issue : CallResult
  cert : WriteOutcome
  ca : WriteOutcome
  key : WriteOutcome
  hookErr : Option Err
  hookEffect : FS → FS

/-- Trace of one call of `renewal`, the file system after it, and either the
value it assigned to `certRenewalInterval` or the way the process ended. -/
structure IterResult where
  events : List Event
  fs : FS
  next : Except Exit Int

/-- The tail of `renewal` after the three writes: assignment of
`certRenewalInterval`, then the command when one is configured. -/
def renewalHook (f : Flags) (pkiSecret : Secret) (env : IterEnv) (fs : FS)
    (done : List Event) : IterResult :=
  let certRenewalInterval := renewDuration pkiSecret.LeaseDuration
  if f.command ≠ "" then
    match env.hookErr with
    | some _ =>
      ⟨done ++ [.exec ["/bin/bash", "-c", f.command] false, .exit (.fatal "Unable to run cmd")],
        env.hookEffect fs, .error (.fatal "Unable to run cmd")⟩
    | none =>
      ⟨done ++ [.exec ["/bin/bash", "-c", f.command] true], env.hookEffect fs,
        .ok certRenewalInterval⟩
  else ⟨done, fs, .ok certRenewalInterval⟩

/-- Source closure `renewal`. -/
def renewal (f : Flags) (path : String) (args : Args) (env : IterEnv) (fs : FS) :
    IterResult :=
  match env.issue with
  | .error _ =>
    ⟨[.issue path args false, .exit (.fatal "Unable to get keys")], fs,
      .error (.fatal "Unable to get keys")⟩
  | .ok none => ⟨[.issue path args true, .exit .runtimePanic], fs, .error .runtimePanic⟩
  | .ok (some pkiSecret) =>
    let e0 : List Event := [.issue path args true]
    match stringField pkiSecret "certificate" with
    | none => ⟨e0 ++ [.exit .runtimePanic], fs, .error .runtimePanic⟩
    | some certificate =>
      match writeFile fs f.certFile certificate env.cert with
      | (fs1, some _) =>
        ⟨e0 ++ [.writeFile f.certFile certificate filePerm false,
            .exit (.fatal "Failed to write certificate")], fs1,
          .error (.fatal "Failed to write certificate")⟩
      | (fs1, none) =>
        let e1 := e0 ++ [.writeFile f.certFile certificate filePerm true]
        match stringField pkiSecret "issuing_ca" with
        | none => ⟨e1 ++ [.exit .runtimePanic], fs1, .error .runtimePanic⟩
        | some issuingCA =>
          match writeFile fs1 f.caFile issuingCA env.ca with
          | (fs2, some _) =>
            ⟨e1 ++ [.writeFile f.caFile issuingCA filePerm false,
                .exit (.fatal "Failed to write ca")], fs2,
              .error (.fatal "Failed to write ca")⟩
          | (fs2, none) =>
            let e2 := e1 ++ [.writeFile f.caFile issuingCA filePerm true]
            match stringField pkiSecret "private_key" with
            | none => ⟨e2 ++ [.exit .runtimePanic], fs2, .error .runtimePanic⟩
            | some privateKey =>
              match writeFile fs2 f.keyFile privateKey env.key with
              | (fs3, some _) =>
                ⟨e2 ++ [.writeFile f.keyFile privateKey filePerm false,
                    .exit (.fatal "Failed to write key")], fs3,
                  .error (.fatal "Failed to write key")⟩
              | (fs3, none) =>
                renewalHook f pkiSecret env fs3
                  (e2 ++ [.writeFile f.keyFile privateKey filePerm true])

/-- Trace of the issuance cycle, the file system at its end and how it ended;
`exit = none` when the cycle was still running at the end of the script. -/
structure CycleRun where
  events : List Event
  fs : FS
  exit : Option Exit

/-- The final `for` loop of `main`, entered with `certRenewalInterval`: sleep,
then `renewal()`. The script holds one entry for each call of `renewal`. -/
def issuanceLoop (f : Flags) (path : String) (args : Args) :
    Int → List IterEnv → FS → CycleRun
  | certRenewalInterval, [], fs => ⟨[.sleep certRenewalInterval], fs, none⟩
  | certRenewalInterval, env :: rest, fs =>
    let r := renewal f path args env fs
    match r.next with
    | .error how => ⟨.sleep certRenewalInterval :: r.events, r.fs, some how⟩
    | .ok interval =>
      let t := issuanceLoop f path args interval rest r.fs
      ⟨.sleep certRenewalInterval :: (r.events ++ t.events), t.fs, t.exit⟩

/-- The issuance part of `main`: the first call `renewal()`, then the loop. -/
def issuanceCycle (f : Flags) (path : String) (args : Args) :
    List IterEnv → FS → CycleRun
  | [], fs => ⟨[], fs, none⟩
  | env :: rest, fs =>
    let r := renewal f path args env fs
    match r.next with
    | .error how => ⟨r.events, r.fs, some how⟩
    | .ok interval =>
      let t := issuanceLoop f path args interval rest r.fs
      ⟨r.events ++ t.events, t.fs, t.exit⟩

/-! ## Observations on traces -/

/-- The durations slept, in order. -/
def sleeps (es : List Event) : List Int :=
  es.filterMap (fun e => match e with | .sleep d => some d | _ => none)

/-- The command lines run, in order. -/
def execs (es : List Event) : List (List String) :=
  es.filterMap (fun e => match e with | .exec argv _ => some argv | _ => none)

/-- The file writes that succeeded, in order: path and data. -/
def okWrites (es : List Event) : List (String × String) :=
  es.filterMap (fun e => match e with | .writeFile n d _ true => some (n, d) | _ => none)

/-- The file writes attempted, in order: path and data. -/
def writes (es : List Event) : List (String × String) :=
  es.filterMap (fun e => match e with | .writeFile n d _ _ => some (n, d) | _ => none)

/-- The issue requests sent, in order: path and request map. -/
def issues (es : List Event) : List (String × Args) :=
  es.filterMap (fun e => match e with | .issue p a _ => some (p, a) | _ => none)

/-- The issue requests that succeeded (no error returned). -/
def okIssues (es : List Event) : List (String × Args) :=
  es.filterMap (fun e => match e with | .issue p a true => some (p, a) | _ => none)

/-- Lease duration returned with the bundle of an iteration (`pkiSecret.LeaseDuration`);
zero when the issue call returned no secret. -/
def bundleLease (env : IterEnv) : Int :=
  match env.issue with
  | .ok (some s) => s.LeaseDuration
  | _ => 0

/-- The events that come before the first command run. -/
def beforeExec (es : List Event) : List Event :=
  es.takeWhile (fun e => match e with | .exec _ _ => false | _ => true)

/-! ## The two cycles as started by `main` -/

/-- The renewal goroutine as `main` starts it: nothing runs when start-up
ended the process. -/
def mainToken (f : Flags) (env : BootEnv) (script : List CallResult) : Run :=
  match (startup f env).outcome with
  | .ok st => tokenCycle st.secret script
  | .error how => ⟨[], some how⟩

/-- The issuance cycle as `main` runs it, with the path and the request map
built at start-up. -/
def mainIssuance (f : Flags) (env : BootEnv) (script : List IterEnv) (fs : FS) : CycleRun :=
  match (startup f env).outcome with
  | .ok st => issuanceCycle f st.vaultPath st.vaultArgs script fs
  | .error how => ⟨[], fs, some how⟩

/-! ## Scenario inputs -/

/-- Flags of scenario B: common name `svc.example.com`, the default IP SANs, no
alternate names, no TTL override, three distinct output files and a command. -/
def scenarioFlags : Flags where
  vaultPKIPath := "pki"
  vaultRole := "server"
  certCN := "svc.example.com"
  certAltNames := ""
  certIPSans := "127.0.0.1"
  certTTL := 0
  certFile := "cert.pem"
  keyFile := "key.pem"
  caFile := "ca.pem"
  command := "reload"
  showVersion := false

/-- Flags that name one file for both the certificate and the CA. -/
def aliasedFlags : Flags where
  vaultPKIPath := "pki"
  vaultRole := "server"
  certCN := "svc.example.com"
  certAltNames := ""
  certIPSans := "127.0.0.1"
  certTTL := 0
  certFile := "bundle.pem"
  keyFile := "key.pem"
  caFile := "bundle.pem"
  command := ""
  showVersion := false

/-- A well formed issue response with a lease of one day. -/
def scenarioBundle : Secret where
  LeaseDuration := 86400
  Data := [("certificate", .str "CERT"), ("issuing_ca", .str "CA"), ("private_key", .str "KEY")]
  Auth := none

/-- A well formed issue response with a lease of zero. -/
def zeroLeaseBundle : Secret where
  LeaseDuration := 0
  Data := [("certificate", .str "CERT"), ("issuing_ca", .str "CA"), ("private_key", .str "KEY")]
  Auth := none

/-- An iteration in which the issue call, the writes and the command succeed. -/
def scenarioIter : IterEnv where
  issue := .ok (some scenarioBundle)
  cert := .ok
  ca := .ok
  key := .ok
  hookErr := none
  hookEffect := id

/-- An iteration that succeeds and is granted a lease of zero. -/
def zeroLeaseIter : IterEnv where
  issue := .ok (some zeroLeaseBundle)
  cert := .ok
  ca := .ok
  key := .ok
  hookErr := none
  hookEffect := id

/-- Scenario C: the issue call fails. -/
def issueDenied : IterEnv where
  issue := .error "permission denied"
  cert := .ok
  ca := .ok
  key := .ok
  hookErr := none
  hookEffect := id

/-- Scenario D with the key file opened and truncated, and no byte written. -/
def keyWriteFails : IterEnv where
  issue := .ok (some scenarioBundle)
  cert := .ok
  ca := .ok
  key := .writeFailed 0 "no space left on device"
  hookErr := none
  hookEffect := id

/-- Scenario D with the key file failing to open. -/
def keyOpenFails : IterEnv where
  issue := .ok (some scenarioBundle)
  cert := .ok
  ca := .ok
  key := .openFailed "permission denied"
  hookErr := none
  hookEffect := id

/-- An issue response whose key holds characters of two bytes each. -/
def accentBundle : Secret where
  LeaseDuration := 86400
  Data := [("certificate", .str "CERT"), ("issuing_ca", .str "CA"), ("private_key", .str "éé")]
  Auth := none

/-- Scenario D with the key file truncated and three bytes written, which ends
the file inside the second character of the key of `accentBundle`. -/
def keyWriteCut : IterEnv where
  issue := .ok (some accentBundle)
  cert := .ok
  ca := .ok
  key := .writeFailed 3 "no space left on device"
  hookErr := none
  hookEffect := id

/-- An iteration whose certificate write fails. -/
def certWriteFails : IterEnv where
  issue := .ok (some scenarioBundle)
  cert := .openFailed "permission denied"
  ca := .ok
  key := .ok
  hookErr := none
  hookEffect := id

/-- A disk that holds an earlier key. -/
def scenarioFS : FS :=
  fun p => if p = "key.pem" then some (goBytes "OLDKEY") else none

/-- The secret inside the wrapping token of scenario A: a token with a lease
of one hour. -/
def wrappedSecret : Secret where
  LeaseDuration := 0
  Data := []
  Auth := some ⟨"s.unwrapped", 3600⟩

/-- Scenario A: the token in the environment wraps `wrappedSecret`. -/
def scenarioBoot : BootEnv where
  envToken := "s.wrapping"
  newClient := none
  unwrap := fun _ => .ok (some wrappedSecret)
  lookupSelf := fun _ => .error "unused"
  durationString := fun _ => "0s"

/-- A token lookup result with a lease of two hours. -/
def lookedUpSecret : Secret where
  LeaseDuration := 0
  Data := []
  Auth := some ⟨"", 7200⟩

/-- A start-up in which the token in the environment is not a wrapping token. -/
def plainBoot : BootEnv where
  envToken := "s.plain"
  newClient := none
  unwrap := fun _ => .ok none
  lookupSelf := fun _ => .ok (some lookedUpSecret)
  durationString := fun _ => "0s"

/-- The answer of the token lookup endpoint: the details of the token are
entries of `Data`, and there is no `Auth` block. -/
def lookupWithoutAuth : Secret where
  LeaseDuration := 0
  Data := [("ttl", .other "7200"), ("id", .str "s.plain")]
  Auth := none

/-- A start-up with a token that is not a wrapping token and a lookup answer
without `Auth` block. -/
def plainBootWithoutAuth : BootEnv where
  envToken := "s.plain"
  newClient := none
  unwrap := fun _ => .ok none
  lookupSelf := fun _ => .ok (some lookupWithoutAuth)
  durationString := fun _ => "0s"

/-- A token secret with a lease of zero. -/
def zeroLeaseToken : Secret where
  LeaseDuration := 0
  Data := []
  Auth := some ⟨"s.unwrapped", 0⟩

/-! ## Arithmetic lemmas -/

theorem lt_two_pow_bitLength (fuel : Nat) : ∀ n : Nat, n ≤ fuel → n < 2 ^ bitLength fuel n := by
  induction fuel with
  | zero =>
    intro n hn
    have : n = 0 := by omega
    subst this
    simp [bitLength]
  | succ fuel ih =>
    intro n hn
    unfold bitLength
    by_cases h0 : n = 0
    · simp [h0]
    · simp only [h0, if_false]
      have h := ih (n / 2) (by omega)
      rw [Nat.pow_succ]
      omega

theorem two_pow_bitLength_le (fuel : Nat) :
    ∀ n : Nat, n ≤ fuel → n ≠ 0 → 2 ^ bitLength fuel n ≤ 2 * n := by
  induction fuel with
  | zero =>
    intro n hn h0
    omega
  | succ fuel ih =>
    intro n hn h0
    unfold bitLength
    simp only [h0, if_false]
    rw [Nat.pow_succ]
    by_cases h1 : n / 2 = 0
    · have hn1 : n = 1 := by omega
      subst hn1
      cases fuel <;> simp [bitLength]
    · have h := ih (n / 2) (by omega) h1
      omega

theorem roundSig53_near (k t e : Nat) (hk : k < 2 ^ 53) (he : 2 ^ 54 * e ≤ k * 2 ^ t) :
    roundSig53 (k * 2 ^ t + e) = k * 2 ^ t := by
  have ht : 0 < 2 ^ t := Nat.two_pow_pos _
  have hkt : (k + 1) * 2 ^ t ≤ 2 ^ 53 * 2 ^ t := Nat.mul_le_mul_right _ hk
  have hkt2 : (k + 1) * 2 ^ t = k * 2 ^ t + 2 ^ t := by ring
  have he2 : e < 2 ^ t := by
    by_contra hge
    push_neg at hge
    have h1 : 2 ^ 54 * 2 ^ t ≤ 2 ^ 54 * e := Nat.mul_le_mul_left _ hge
    have h2 : 2 ^ 54 * 2 ^ t = 2 * (2 ^ 53 * 2 ^ t) := by ring
    omega
  generalize hN : k * 2 ^ t + e = N
  have hlt := lt_two_pow_bitLength N N le_rfl
  unfold roundSig53
  by_cases hlen : bitLength N N ≤ 53
  · rw [if_pos hlen]
    have h53 : N < 2 ^ 53 := lt_of_lt_of_le hlt (Nat.pow_le_pow_right (by norm_num) hlen)
    have he0 : e = 0 := by
      by_contra h
      have : 2 ^ 54 * 1 ≤ 2 ^ 54 * e := Nat.mul_le_mul_left _ (by omega)
      omega
    omega
  · rw [if_neg hlen]
    push_neg at hlen
    have hN0 : N ≠ 0 := by
      intro h
      rw [h] at hlen
      simp [bitLength] at hlen
    have hle := two_pow_bitLength_le N N le_rfl hN0
    obtain ⟨s, hs⟩ : ∃ s, bitLength N N = s + 54 := ⟨bitLength N N - 54, by omega⟩
    rw [hs] at hlt hle
    have hsh : s + 54 - 53 = s + 1 := by omega
    have hs1 : s + 1 - 1 = s := by omega
    simp only [hs, hsh, hs1]
    have hp54 : 2 ^ (s + 54) = 2 ^ 54 * 2 ^ s := by rw [Nat.pow_add]; ring
    have hes : e < 2 ^ s := by
      by_contra hge
      push_neg at hge
      have h1 : 2 ^ 54 * 2 ^ s ≤ 2 ^ 54 * e := Nat.mul_le_mul_left _ hge
      omega
    have hst : s < t := by
      have h1 : 2 ^ (s + 54) < 2 ^ (t + 54) := by
        have h2 : 2 ^ (t + 54) = 2 * (2 ^ 53 * 2 ^ t) := by rw [Nat.pow_add]; ring
        omega
      have := (Nat.pow_lt_pow_iff_right (by norm_num : 1 < 2)).1 h1
      omega
    obtain ⟨u, hu⟩ : ∃ u, t = u + (s + 1) := ⟨t - (s + 1), by omega⟩
    have hps : 0 < 2 ^ (s + 1) := Nat.two_pow_pos _
    have hs2 : 2 ^ (s + 1) = 2 * 2 ^ s := by rw [Nat.pow_succ]; ring
    have hkt3 : k * 2 ^ t = k * 2 ^ u * 2 ^ (s + 1) := by rw [hu, Nat.pow_add]; ring
    have hNe : N = e + k * 2 ^ u * 2 ^ (s + 1) := by omega
    have hq : N / 2 ^ (s + 1) = k * 2 ^ u := by
      rw [hNe, Nat.add_mul_div_right _ _ hps, Nat.div_eq_of_lt (by omega)]
      simp
    have hr : N % 2 ^ (s + 1) = e := by
      rw [hNe, Nat.add_mul_mod_self_right, Nat.mod_eq_of_lt (by omega)]
    rw [hq, hr, if_neg (by omega)]
    omega

theorem renewDuration_ofNat (D : Nat) (h : D ≤ 2562047788) :
    renewDuration (D : Int) = 900000000 * (D : Int) := by
  have hw : wrapInt64 ((D : Int) * second) = ((D * 1000000000 : Nat) : Int) := by
    unfold wrapInt64 second
    push_cast
    omega
  have hf : roundSig53 (D * 1000000000) = D * 1000000000 := by
    have := roundSig53_near (D * 1953125) 9 0 (by norm_num; omega) (by simp)
    norm_num at this
    have e : D * 1953125 * 512 = D * 1000000000 := by ring
    rw [e] at this
    exact this
  have hm : roundSig53 (D * 1000000000 * point9Num) = D * 900000000 * 2 ^ 53 := by
    have := roundSig53_near (D * 3515625) 61 (200000000 * D) (by norm_num; omega)
      (by norm_num; omega)
    have e1 : D * 3515625 * 2 ^ 61 + 200000000 * D = D * 1000000000 * point9Num := by
      unfold point9Num; ring
    have e2 : D * 3515625 * 2 ^ 61 = D * 900000000 * 2 ^ 53 := by ring
    rw [e1, e2] at this
    exact this
  unfold renewDuration float64OfInt mulPoint9ToInt
  rw [hw]
  simp only [Int.natAbs_ofNat, hf]
  rcases Nat.eq_zero_or_pos D with h0 | h0
  · subst h0
    simp
  · have hs : Int.sign ((D * 1000000000 : Nat) : Int) = 1 := Int.sign_eq_one_of_pos (by positivity)
    rw [hs, one_mul, Int.natAbs_ofNat, hs, one_mul, hm]
    rw [Nat.mul_div_cancel _ (by positivity)]
    push_cast
    ring

/-! ## C1: the renewal delay -/

/-- C1 (as amended): for every lease duration `d` with `0 ≤ d ≤ 2562047788`
seconds, `renewDuration d` is exactly `900000000 * d` nanoseconds, that is
`0.9 * d` seconds; in particular `renewDuration 0 = 0`. -/
theorem renewDuration_exact_in_range (d : Int) (h0 : 0 ≤ d) (h1 : d ≤ 2562047788) :
    renewDuration d = 900000000 * d := by
  obtain ⟨D, rfl⟩ := Int.eq_ofNat_of_zero_le h0
  exact renewDuration_ofNat D (by omega)

/-- Witness for C1 at a lease of one hour. -/
theorem renewDuration_exact_in_range_witness :
    (0 : Int) ≤ 3600 ∧ (3600 : Int) ≤ 2562047788 ∧ renewDuration 3600 = 900000000 * 3600 :=
  ⟨by decide, by decide, renewDuration_exact_in_range 3600 (by decide) (by decide)⟩

/-- C1 as stated fails at `d = 2562047789`: the int64 product `d * 10 ^ 9` is
exact, but `900000000 * d` lies halfway between two neighbouring float64
values and the float64 product rounds up to the one 256 nanoseconds above. -/
theorem renewDuration_inexact_at_2562047789 :
    (0 : Int) ≤ 2562047789 ∧
    renewDuration 2562047789 = 900000000 * 2562047789 + 256 ∧
    renewDuration 2562047789 ≠ 900000000 * 2562047789 := by
  decide

/-! ## One call of `renewal` -/

theorem stringField_eq_some (s : Secret) (key v : String) :
    stringField s key = some v ↔ s.Data.lookup key = some (.str v) := by
  unfold stringField
  rcases h : s.Data.lookup key with _ | x
  · simp
  · cases x <;> simp

theorem renewal_issue_error (f : Flags) (path : String) (args : Args) (env : IterEnv) (fs : FS)
    (e : Err) (h : env.issue = .error e) :
    renewal f path args env fs =
      ⟨[.issue path args false, .exit (.fatal "Unable to get keys")], fs,
        .error (.fatal "Unable to get keys")⟩ := by
  simp [renewal, h]

theorem renewal_key_failed (f : Flags) (path : String) (args : Args) (env : IterEnv) (fs : FS)
    (s : Secret) (c a k : String) (hi : env.issue = .ok (some s))
    (hc : stringField s "certificate" = some c) (ha : stringField s "issuing_ca" = some a)
    (hk : stringField s "private_key" = some k) (hwc : env.cert = .ok) (hwa : env.ca = .ok)
    (hwk : env.key ≠ .ok) :
    (renewal f path args env fs).events =
        [.issue path args true, .writeFile f.certFile c filePerm true,
          .writeFile f.caFile a filePerm true, .writeFile f.keyFile k filePerm false,
          .exit (.fatal "Failed to write key")] ∧
      (renewal f path args env fs).next = .error (.fatal "Failed to write key") ∧
      (renewal f path args env fs).fs =
        (writeFile (writeFile (writeFile fs f.certFile c .ok).1 f.caFile a .ok).1
          f.keyFile k env.key).1 := by
  rcases hwk2 : env.key with _ | e | ⟨n, e⟩
  · exact absurd hwk2 hwk
  · simp [renewal, hi, hc, ha, hk, hwc, hwa, hwk2, writeFile]
  · simp [renewal, hi, hc, ha, hk, hwc, hwa, hwk2, writeFile]

theorem renewal_cert_failed (f : Flags) (path : String) (args : Args) (env : IterEnv) (fs : FS)
    (s : Secret) (c : String) (hi : env.issue = .ok (some s))
    (hc : stringField s "certificate" = some c) (hwc : env.cert ≠ .ok) :
    (renewal f path args env fs).events =
        [.issue path args true, .writeFile f.certFile c filePerm false,
          .exit (.fatal "Failed to write certificate")] ∧
      (renewal f path args env fs).next = .error (.fatal "Failed to write certificate") ∧
      (renewal f path args env fs).fs = (writeFile fs f.certFile c env.cert).1 := by
  rcases hwc2 : env.cert with _ | e | ⟨n, e⟩
  · exact absurd hwc2 hwc
  · simp [renewal, hi, hc, hwc2, writeFile]
  · simp [renewal, hi, hc, hwc2, writeFile]

theorem renewal_ca_failed (f : Flags) (path : String) (args : Args) (env : IterEnv) (fs : FS)
    (s : Secret) (c a : String) (hi : env.issue = .ok (some s))
    (hc : stringField s "certificate" = some c) (ha : stringField s "issuing_ca" = some a)
    (hwc : env.cert = .ok) (hwa : env.ca ≠ .ok) :
    (renewal f path args env fs).events =
        [.issue path args true, .writeFile f.certFile c filePerm true,
          .writeFile f.caFile a filePerm false, .exit (.fatal "Failed to write ca")] ∧
      (renewal f path args env fs).next = .error (.fatal "Failed to write ca") ∧
      (renewal f path args env fs).fs =
        (writeFile (writeFile fs f.certFile c .ok).1 f.caFile a env.ca).1 := by
  rcases hwa2 : env.ca with _ | e | ⟨n, e⟩
  · exact absurd hwa2 hwa
  · simp [renewal, hi, hc, ha, hwc, hwa2, writeFile]
  · simp [renewal, hi, hc, ha, hwc, hwa2, writeFile]

theorem renewal_error_ends_cycle (f : Flags) (path : String) (args : Args) (env : IterEnv)
    (fs : FS) (how : Exit) (h : (renewal f path args env fs).next = .error how) :
    (∀ rest,
      (issuanceCycle f path args (env :: rest) fs).events =
        (renewal f path args env fs).events ∧
      (issuanceCycle f path args (env :: rest) fs).exit = some how) ∧
    (∀ iv rest,
      (issuanceLoop f path args iv (env :: rest) fs).events =
        .sleep iv :: (renewal f path args env fs).events ∧
      (issuanceLoop f path args iv (env :: rest) fs).exit = some how) := by
  constructor
  · intro rest
    simp [issuanceCycle, h]
  · intro iv rest
    simp [issuanceLoop, h]

theorem renewal_ok_iff (f : Flags) (path : String) (args : Args) (env : IterEnv) (fs : FS)
    (iv : Int) :
    (renewal f path args env fs).next = .ok iv ↔
      ∃ s c a k, env.issue = .ok (some s) ∧ stringField s "certificate" = some c ∧
        stringField s "issuing_ca" = some a ∧ stringField s "private_key" = some k ∧
        env.cert = .ok ∧ env.ca = .ok ∧ env.key = .ok ∧
        (f.command = "" ∨ env.hookErr = none) ∧ iv = renewDuration s.LeaseDuration := by
  rcases hi : env.issue with e | _ | s
  · simp [renewal, hi]
  · simp [renewal, hi]
  · rcases hc : stringField s "certificate" with _ | c
    · simp [renewal, hi, hc]
    · rcases hwc : env.cert with _ | e | ⟨n, e⟩
      · rcases ha : stringField s "issuing_ca" with _ | a
        · simp [renewal, hi, hc, hwc, ha, writeFile]
        · rcases hwa : env.ca with _ | e | ⟨n, e⟩
          · rcases hk : stringField s "private_key" with _ | k
            · simp [renewal, hi, hc, hwc, ha, hwa, hk, writeFile]
            · rcases hwk : env.key with _ | e | ⟨n, e⟩
              · by_cases hcmd : f.command = ""
                · simp [renewal, renewalHook, hi, hc, hwc, ha, hwa, hk, hwk, writeFile, hcmd,
                    eq_comm]
                · rcases hh : env.hookErr with _ | e
                  · simp [renewal, renewalHook, hi, hc, hwc, ha, hwa, hk, hwk, hh, writeFile,
                      hcmd, eq_comm]
                  · simp [renewal, renewalHook, hi, hc, hwc, ha, hwa, hk, hwk, hh, writeFile,
                      hcmd]
              · simp [renewal, hi, hc, hwc, ha, hwa, hk, hwk, writeFile]
              · simp [renewal, hi, hc, hwc, ha, hwa, hk, hwk, writeFile]
          · simp [renewal, hi, hc, hwc, ha, hwa, writeFile]
          · simp [renewal, hi, hc, hwc, ha, hwa, writeFile]
      · simp [renewal, hi, hc, hwc, writeFile]
      · simp [renewal, hi, hc, hwc, writeFile]

theorem renewal_ok (f : Flags) (path : String) (args : Args) (env : IterEnv) (fs : FS)
    (s : Secret) (c a k : String) (hi : env.issue = .ok (some s))
    (hc : stringField s "certificate" = some c) (ha : stringField s "issuing_ca" = some a)
    (hk : stringField s "private_key" = some k) (hwc : env.cert = .ok) (hwa : env.ca = .ok)
    (hwk : env.key = .ok) (hh : f.command = "" ∨ env.hookErr = none) :
    renewal f path args env fs =
      ⟨[.issue path args true, .writeFile f.certFile c filePerm true,
          .writeFile f.caFile a filePerm true, .writeFile f.keyFile k filePerm true] ++
          (if f.command = "" then [] else [.exec ["/bin/bash", "-c", f.command] true]),
        (if f.command = "" then id else env.hookEffect)
          (fun p => if p = f.keyFile then some (goBytes k)
            else if p = f.caFile then some (goBytes a)
            else if p = f.certFile then some (goBytes c) else fs p),
        .ok (renewDuration s.LeaseDuration)⟩ := by
  by_cases hcmd : f.command = ""
  · simp [renewal, renewalHook, hi, hc, hwc, ha, hwa, hk, hwk, writeFile, hcmd]
  · rcases hh with hh | hh
    · exact absurd hh hcmd
    · simp [renewal, renewalHook, hi, hc, hwc, ha, hwa, hk, hwk, hh, writeFile, hcmd]

theorem renewal_events_next_indep (f : Flags) (path : String) (args : Args) (env : IterEnv)
    (fs fs' : FS) :
    (renewal f path args env fs).events = (renewal f path args env fs').events ∧
      (renewal f path args env fs).next = (renewal f path args env fs').next := by
  rcases hi : env.issue with e | _ | s
  · simp [renewal, hi]
  · simp [renewal, hi]
  · rcases hc : stringField s "certificate" with _ | c
    · simp [renewal, hi, hc]
    · rcases hwc : env.cert with _ | e | ⟨n, e⟩
      · rcases ha : stringField s "issuing_ca" with _ | a
        · simp [renewal, hi, hc, hwc, ha, writeFile]
        · rcases hwa : env.ca with _ | e | ⟨n, e⟩
          · rcases hk : stringField s "private_key" with _ | k
            · simp [renewal, hi, hc, hwc, ha, hwa, hk, writeFile]
            · rcases hwk : env.key with _ | e | ⟨n, e⟩
              · by_cases hcmd : f.command = ""
                · simp [renewal, renewalHook, hi, hc, hwc, ha, hwa, hk, hwk, writeFile, hcmd]
                · rcases hh : env.hookErr with _ | e
                  · simp [renewal, renewalHook, hi, hc, hwc, ha, hwa, hk, hwk, hh, writeFile,
                      hcmd]
                  · simp [renewal, renewalHook, hi, hc, hwc, ha, hwa, hk, hwk, hh, writeFile,
                      hcmd]
              · simp [renewal, hi, hc, hwc, ha, hwa, hk, hwk, writeFile]
              · simp [renewal, hi, hc, hwc, ha, hwa, hk, hwk, writeFile]
          · simp [renewal, hi, hc, hwc, ha, hwa, writeFile]
          · simp [renewal, hi, hc, hwc, ha, hwa, writeFile]
      · simp [renewal, hi, hc, hwc, writeFile]
      · simp [renewal, hi, hc, hwc, writeFile]

/-! ## The loops -/

theorem issuanceLoop_head (f : Flags) (path : String) (args : Args) (iv : Int)
    (script : List IterEnv) (fs : FS) :
    ∃ tl, (issuanceLoop f path args iv script fs).events = .sleep iv :: tl := by
  cases script with
  | nil => exact ⟨[], rfl⟩
  | cons env rest =>
    rcases h : (renewal f path args env fs).next with how | interval
    · exact ⟨(renewal f path args env fs).events, by simp [issuanceLoop, h]⟩
    · exact ⟨(renewal f path args env fs).events ++
        (issuanceLoop f path args interval rest (renewal f path args env fs).fs).events,
        by simp [issuanceLoop, h]⟩

theorem renewal_ok_lease (f : Flags) (path : String) (args : Args) (env : IterEnv) (fs : FS)
    (iv : Int) (h : (renewal f path args env fs).next = .ok iv) :
    iv = renewDuration (bundleLease env) := by
  obtain ⟨s, c, a, k, hi, -, -, -, -, -, -, -, hiv⟩ := (renewal_ok_iff f path args env fs iv).1 h
  simp [bundleLease, hi, hiv]

theorem issuanceLoop_good (f : Flags) (path : String) (args : Args) (fs0 : FS)
    (good rest : List IterEnv)
    (hgood : ∀ env ∈ good, ∃ iv, (renewal f path args env fs0).next = .ok iv) :
    ∀ (iv : Int) (fs : FS), ∃ tl, (issuanceLoop f path args iv (good ++ rest) fs).events =
      .sleep iv :: ((good.map (fun env => (renewal f path args env fs0).events ++
        [Event.sleep (renewDuration (bundleLease env))])).flatten ++ tl) := by
  induction good with
  | nil =>
    intro iv fs
    obtain ⟨tl, h⟩ := issuanceLoop_head f path args iv rest fs
    exact ⟨tl, by simpa using h⟩
  | cons env g ih =>
    intro iv fs
    obtain ⟨iv1, h1⟩ := hgood env (List.mem_cons_self _ _)
    have hind := renewal_events_next_indep f path args env fs fs0
    have hnext : (renewal f path args env fs).next = .ok iv1 := by rw [hind.2, h1]
    have hlease := renewal_ok_lease f path args env fs0 iv1 h1
    obtain ⟨tl, htl⟩ := ih (fun e he => hgood e (List.mem_cons_of_mem _ he)) iv1
      (renewal f path args env fs).fs
    refine ⟨tl, ?_⟩
    subst hlease
    rw [List.cons_append]
    simp only [issuanceLoop, hnext]
    rw [htl, hind.1]
    simp

theorem tokenLoop_head_two (iv : Int) (r : CallResult) (rest : List CallResult) :
    ∃ ok tl, (tokenLoop iv (r :: rest)).events = .sleep iv :: .renewSelf 0 ok :: tl := by
  rcases r with e | newSecret
  · exact ⟨false, [.exit (.fatal "Unable to renew token")], by simp [tokenLoop]⟩
  · rcases h : authLease newSecret with _ | lease
    · exact ⟨true, [.exit .runtimePanic], by simp [tokenLoop, h]⟩
    · exact ⟨true, (tokenLoop (renewDuration lease) rest).events, by simp [tokenLoop, h]⟩

theorem tokenLoop_head (iv : Int) (script : List CallResult) :
    ∃ tl, (tokenLoop iv script).events = .sleep iv :: tl := by
  cases script with
  | nil => exact ⟨[], rfl⟩
  | cons r rest =>
    obtain ⟨ok, tl, h⟩ := tokenLoop_head_two iv r rest
    exact ⟨_, h⟩

theorem tokenLoop_good (good : List (Secret × Int)) (rest : List CallResult)
    (hgood : ∀ p ∈ good, authLease (some p.1) = some p.2) :
    ∀ iv : Int, ∃ tl, (tokenLoop iv (good.map (fun p => Except.ok (some p.1)) ++ rest)).events =
      .sleep iv :: ((good.map (fun p =>
        [Event.renewSelf 0 true, Event.sleep (renewDuration p.2)])).flatten ++ tl) := by
  induction good with
  | nil =>
    intro iv
    obtain ⟨tl, h⟩ := tokenLoop_head iv rest
    exact ⟨tl, by simpa using h⟩
  | cons p g ih =>
    intro iv
    have hp := hgood p (List.mem_cons_self _ _)
    obtain ⟨tl, htl⟩ := ih (fun e he => hgood e (List.mem_cons_of_mem _ he)) (renewDuration p.2)
    refine ⟨tl, ?_⟩
    rw [List.map_cons, List.cons_append]
    simp only [tokenLoop, hp]
    rw [htl]
    simp

/-! ## C2: when the command runs -/

/-- C2: in an iteration with a command configured, the command is run if and
only if the issue call succeeded and the three writes (certificate, CA, key)
all succeeded, which holds exactly when the script answers the issue call
with a secret carrying the three string fields and lets the three writes
succeed; when it runs, it runs once, as `/bin/bash -c command`, after the
three successful writes; and it does not run in an iteration in which the
issue call or a write failed. -/
theorem hook_iff_issue_and_writes_succeeded (f : Flags) (path : String) (args : Args)
    (env : IterEnv) (fs : FS) (hcmd : f.command ≠ "") :
    (execs (renewal f path args env fs).events ≠ [] ↔
      (okIssues (renewal f path args env fs).events = [(path, args)] ∧
        ∃ c a k, okWrites (renewal f path args env fs).events =
          [(f.certFile, c), (f.caFile, a), (f.keyFile, k)])) ∧
    (execs (renewal f path args env fs).events ≠ [] ↔
      ∃ s c a k, env.issue = .ok (some s) ∧ stringField s "certificate" = some c ∧
        stringField s "issuing_ca" = some a ∧ stringField s "private_key" = some k ∧
        env.cert = .ok ∧ env.ca = .ok ∧ env.key = .ok) ∧
    (execs (renewal f path args env fs).events ≠ [] →
      execs (renewal f path args env fs).events = [["/bin/bash", "-c", f.command]] ∧
      okWrites (beforeExec (renewal f path args env fs).events) =
        okWrites (renewal f path args env fs).events) ∧
    ((Event.issue path args false ∈ (renewal f path args env fs).events ∨
        ∃ n d p, Event.writeFile n d p false ∈ (renewal f path args env fs).events) →
      execs (renewal f path args env fs).events = []) := by
  rcases hi : env.issue with e | _ | s
  · simp [renewal, hi, execs, okIssues, okWrites, beforeExec]
  · simp [renewal, hi, execs, okIssues, okWrites, beforeExec]
  · rcases hc : stringField s "certificate" with _ | c
    · simp [renewal, hi, hc, execs, okIssues, okWrites, beforeExec]
    · rcases hwc : env.cert with _ | e | ⟨n, e⟩
      · rcases ha : stringField s "issuing_ca" with _ | a
        · simp [renewal, hi, hc, hwc, ha, execs, okIssues, okWrites, beforeExec, writeFile]
        · rcases hwa : env.ca with _ | e | ⟨n, e⟩
          · rcases hk : stringField s "private_key" with _ | k
            · simp [renewal, hi, hc, hwc, ha, hwa, hk, execs, okIssues, okWrites, beforeExec,
                writeFile]
            · rcases hwk : env.key with _ | e | ⟨n, e⟩
              · rcases hh : env.hookErr with _ | e
                · simp [renewal, renewalHook, hi, hc, hwc, ha, hwa, hk, hwk, hh, execs, okIssues,
                    okWrites, beforeExec, writeFile, hcmd]
                · simp [renewal, renewalHook, hi, hc, hwc, ha, hwa, hk, hwk, hh, execs, okIssues,
                    okWrites, beforeExec, writeFile, hcmd]
              · simp [renewal, hi, hc, hwc, ha, hwa, hk, hwk, execs, okIssues, okWrites,
                  beforeExec, writeFile]
              · simp [renewal, hi, hc, hwc, ha, hwa, hk, hwk, execs, okIssues, okWrites,
                  beforeExec, writeFile]
          · simp [renewal, hi, hc, hwc, ha, hwa, execs, okIssues, okWrites, beforeExec, writeFile]
          · simp [renewal, hi, hc, hwc, ha, hwa, execs, okIssues, okWrites, beforeExec, writeFile]
      · simp [renewal, hi, hc, hwc, execs, okIssues, okWrites, beforeExec, writeFile]
      · simp [renewal, hi, hc, hwc, execs, okIssues, okWrites, beforeExec, writeFile]

/-- Witness for C2: scenario B, where the command `reload` runs once. -/
theorem hook_iff_issue_and_writes_succeeded_witness :
    scenarioFlags.command ≠ "" ∧
    execs (renewal scenarioFlags "pki/issue/server" [] scenarioIter scenarioFS).events =
      [["/bin/bash", "-c", "reload"]] :=
  ⟨by decide,
    ((hook_iff_issue_and_writes_succeeded scenarioFlags "pki/issue/server" [] scenarioIter
      scenarioFS (by decide)).2.2.1 (by decide)).1⟩

/-! ## C4: what is written -/

/-- C4: in every iteration that completes, the issue call returned a secret
whose `certificate`, `issuing_ca` and `private_key` entries are strings, and
the iteration wrote exactly three files, all with success: the certificate
string to the certificate file, the CA string to the CA file and the key
string to the key file, each string unchanged. The file system after the
writes maps each of the three paths to the bytes of the string written to it
(the later write when two paths coincide), before any effect of the command. -/
theorem files_written_are_response_fields (f : Flags) (path : String) (args : Args)
    (env : IterEnv) (fs : FS) (iv : Int) (h : (renewal f path args env fs).next = .ok iv) :
    ∃ s c a k, env.issue = .ok (some s) ∧
      s.Data.lookup "certificate" = some (.str c) ∧
      s.Data.lookup "issuing_ca" = some (.str a) ∧
      s.Data.lookup "private_key" = some (.str k) ∧
      writes (renewal f path args env fs).events =
        [(f.certFile, c), (f.caFile, a), (f.keyFile, k)] ∧
      okWrites (renewal f path args env fs).events =
        [(f.certFile, c), (f.caFile, a), (f.keyFile, k)] ∧
      (renewal f path args env fs).fs =
        (if f.command = "" then id else env.hookEffect)
          (fun p => if p = f.keyFile then some (goBytes k)
            else if p = f.caFile then some (goBytes a)
            else if p = f.certFile then some (goBytes c) else fs p) ∧
      (f.certFile ≠ f.caFile → f.certFile ≠ f.keyFile → f.caFile ≠ f.keyFile →
        f.command = "" →
        (renewal f path args env fs).fs f.certFile = some (goBytes c) ∧
        (renewal f path args env fs).fs f.caFile = some (goBytes a) ∧
        (renewal f path args env fs).fs f.keyFile = some (goBytes k)) := by
  obtain ⟨s, c, a, k, hi, hc, ha, hk, hwc, hwa, hwk, hh, -⟩ :=
    (renewal_ok_iff f path args env fs iv).1 h
  have hr := renewal_ok f path args env fs s c a k hi hc ha hk hwc hwa hwk hh
  refine ⟨s, c, a, k, hi, (stringField_eq_some s _ c).1 hc, (stringField_eq_some s _ a).1 ha,
    (stringField_eq_some s _ k).1 hk, ?_, ?_, ?_, ?_⟩
  · rw [hr]
    by_cases hcmd : f.command = "" <;> simp [writes, hcmd]
  · rw [hr]
    by_cases hcmd : f.command = "" <;> simp [okWrites, hcmd]
  · rw [hr]
  · intro h1 h2 h3 hcmd
    rw [hr]
    simp [hcmd, h1, h2, h3]

/-- Witness for C4: scenario B writes `CERT`, `CA` and `KEY` to `cert.pem`,
`ca.pem` and `key.pem`. -/
theorem files_written_are_response_fields_witness :
    (renewal scenarioFlags "pki/issue/server" [] scenarioIter scenarioFS).next =
        .ok 77760000000000 ∧
    ∃ s c a k, scenarioIter.issue = .ok (some s) ∧
      s.Data.lookup "certificate" = some (.str c) ∧
      s.Data.lookup "issuing_ca" = some (.str a) ∧
      s.Data.lookup "private_key" = some (.str k) ∧
      writes (renewal scenarioFlags "pki/issue/server" [] scenarioIter scenarioFS).events =
        [("cert.pem", c), ("ca.pem", a), ("key.pem", k)] :=
  ⟨by rfl, by
    obtain ⟨s, c, a, k, h1, h2, h3, h4, h5, -⟩ :=
      files_written_are_response_fields scenarioFlags "pki/issue/server" [] scenarioIter
        scenarioFS 77760000000000 (by rfl)
    exact ⟨s, c, a, k, h1, h2, h3, h4, h5⟩⟩

/-! ## Start-up and the cycles: the remaining claims -/

theorem startup_unwrapped (f : Flags) (env : BootEnv) (s : Secret) (a : SecretAuth)
    (hv : f.showVersion = false) (hvalid : f.valid) (htok : env.envToken ≠ "")
    (hcl : env.newClient = none) (hu : env.unwrap env.envToken = .ok (some s))
    (ha : s.Auth = some a) :
    startup f env =
      ⟨[.setToken env.envToken, .unwrap env.envToken true, .setToken a.ClientToken],
        .ok ⟨vaultPath f, vaultArgs env.durationString f, a.ClientToken, some s⟩⟩ := by
  unfold Flags.valid at hvalid
  simp [startup, hv, hvalid, htok, hcl, hu, ha]

theorem startup_plain (f : Flags) (env : BootEnv) (sec : Option Secret)
    (hv : f.showVersion = false) (hvalid : f.valid) (htok : env.envToken ≠ "")
    (hcl : env.newClient = none) (hu : env.unwrap env.envToken = .ok none)
    (hl : env.lookupSelf env.envToken = .ok sec) :
    startup f env =
      ⟨[.setToken env.envToken, .unwrap env.envToken true, .lookupSelf true],
        .ok ⟨vaultPath f, vaultArgs env.durationString f, env.envToken, sec⟩⟩ := by
  unfold Flags.valid at hvalid
  simp [startup, hv, hvalid, htok, hcl, hu, hl]

/-- Bootstrap with secrets that carry an `Auth` block: when start-up passes the
flag checks, finds a token in the environment and obtains a client, then (a) if `Unwrap(token)` returns a secret with an
`Auth` block, start-up completes, the client holds that block's `ClientToken`
(set by the last `SetToken`), and the renewal goroutine first sleeps for
`renewDuration` of that block's `LeaseDuration`; (b) if `Unwrap(token)` returns
nil without error and `LookupSelf` returns a secret, start-up completes, the
client holds the token of the environment, the secret kept is the one
`LookupSelf` returned, and the renewal goroutine first sleeps for
`renewDuration` of the `Auth.LeaseDuration` of that secret. -/
theorem bootstrap_resolution (f : Flags) (env : BootEnv) (hv : f.showVersion = false)
    (hvalid : f.valid) (htok : env.envToken ≠ "") (hcl : env.newClient = none) :
    (∀ s a, env.unwrap env.envToken = .ok (some s) → s.Auth = some a →
      (startup f env).outcome =
        .ok ⟨vaultPath f, vaultArgs env.durationString f, a.ClientToken, some s⟩ ∧
      (startup f env).events =
        [.setToken env.envToken, .unwrap env.envToken true, .setToken a.ClientToken] ∧
      ∀ script, ∃ tl,
        (mainToken f env script).events = .sleep (renewDuration a.LeaseDuration) :: tl) ∧
    (∀ sec, env.unwrap env.envToken = .ok none → env.lookupSelf env.envToken = .ok sec →
      (startup f env).outcome =
        .ok ⟨vaultPath f, vaultArgs env.durationString f, env.envToken, sec⟩ ∧
      (startup f env).events =
        [.setToken env.envToken, .unwrap env.envToken true, .lookupSelf true] ∧
      ∀ lease, authLease sec = some lease → ∀ script, ∃ tl,
        (mainToken f env script).events = .sleep (renewDuration lease) :: tl) := by
  constructor
  · intro s a hu ha
    have h := startup_unwrapped f env s a hv hvalid htok hcl hu ha
    refine ⟨by rw [h], by rw [h], ?_⟩
    intro script
    have hl : authLease (some s) = some a.LeaseDuration := by simp [authLease, ha]
    simp only [mainToken, h, tokenCycle, hl]
    exact tokenLoop_head _ _
  · intro sec hu hl
    have h := startup_plain f env sec hv hvalid htok hcl hu hl
    refine ⟨by rw [h], by rw [h], ?_⟩
    intro lease hlease script
    simp only [mainToken, h, tokenCycle, hlease]
    exact tokenLoop_head _ _

/-- Instance of the bootstrap with `Auth` blocks: scenario A adopts the unwrapped token
`s.unwrapped`, and a plain token is kept with the looked up secret. -/
theorem bootstrap_resolution_witness :
    scenarioFlags.showVersion = false ∧ scenarioFlags.valid ∧ scenarioBoot.envToken ≠ "" ∧
    scenarioBoot.newClient = none ∧
    (startup scenarioFlags scenarioBoot).outcome =
      .ok ⟨"pki/issue/server", [("common_name", "svc.example.com"), ("ip_sans", "127.0.0.1")],
        "s.unwrapped", some wrappedSecret⟩ ∧
    (startup scenarioFlags plainBoot).outcome =
      .ok ⟨"pki/issue/server", [("common_name", "svc.example.com"), ("ip_sans", "127.0.0.1")],
        "s.plain", some lookedUpSecret⟩ :=
  ⟨by decide, by decide, by decide, by decide,
    ((bootstrap_resolution scenarioFlags scenarioBoot (by decide) (by decide) (by decide)
      (by decide)).1 wrappedSecret ⟨"s.unwrapped", 3600⟩ (by rfl) (by rfl)).1,
    ((bootstrap_resolution scenarioFlags plainBoot (by decide) (by decide) (by decide)
      (by decide)).2 (some lookedUpSecret) (by rfl) (by rfl)).1⟩

/-- C3 (where the code fails it): when start-up passes the flag checks, finds a
token in the environment and obtains a client, `Unwrap(token)` returns nil
without error and `LookupSelf` returns a secret without `Auth` block (or nil),
start-up completes with the token of the environment and that secret, and
the renewal goroutine then ends the process by a run time panic at
`secret.Auth.LeaseDuration`: it seeds no lease, sleeps for no duration and
never calls `RenewSelf`, whatever the script holds. -/
theorem plain_token_lookup_without_auth_panics (f : Flags) (env : BootEnv)
    (sec : Option Secret) (hv : f.showVersion = false) (hvalid : f.valid)
    (htok : env.envToken ≠ "") (hcl : env.newClient = none)
    (hu : env.unwrap env.envToken = .ok none) (hl : env.lookupSelf env.envToken = .ok sec)
    (hno : authLease sec = none) :
    (startup f env).outcome =
      .ok ⟨vaultPath f, vaultArgs env.durationString f, env.envToken, sec⟩ ∧
    (startup f env).events =
      [.setToken env.envToken, .unwrap env.envToken true, .lookupSelf true] ∧
    ∀ script, mainToken f env script = ⟨[.exit .runtimePanic], some .runtimePanic⟩ ∧
      sleeps (mainToken f env script).events = [] := by
  have h := startup_plain f env sec hv hvalid htok hcl hu hl
  refine ⟨by rw [h], by rw [h], ?_⟩
  intro script
  have hm : mainToken f env script = ⟨[.exit .runtimePanic], some .runtimePanic⟩ := by
    simp only [mainToken, h, tokenCycle, hno]
  exact ⟨hm, by rw [hm]; simp [sleeps]⟩

/-- Witness for C3: a plain token whose lookup answer has the token details in
`Data` and no `Auth` block makes the renewal goroutine panic at once. -/
theorem plain_token_lookup_without_auth_panics_witness :
    scenarioFlags.showVersion = false ∧ scenarioFlags.valid ∧
    plainBootWithoutAuth.envToken ≠ "" ∧ plainBootWithoutAuth.newClient = none ∧
    plainBootWithoutAuth.unwrap plainBootWithoutAuth.envToken = .ok none ∧
    plainBootWithoutAuth.lookupSelf plainBootWithoutAuth.envToken =
      .ok (some lookupWithoutAuth) ∧
    authLease (some lookupWithoutAuth) = none ∧
    mainToken scenarioFlags plainBootWithoutAuth [.ok (some lookedUpSecret)] =
      ⟨[.exit .runtimePanic], some .runtimePanic⟩ :=
  ⟨by decide, by decide, by decide, by decide, rfl, rfl, rfl,
    ((plain_token_lookup_without_auth_panics scenarioFlags plainBootWithoutAuth
      (some lookupWithoutAuth) (by decide) (by decide) (by decide) (by decide) rfl rfl rfl).2.2
      [.ok (some lookedUpSecret)]).1⟩

/-- C5: when the renewal goroutine starts from a secret with an `Auth` block
and the `RenewSelf` calls answer with secrets that carry `Auth` blocks, the
trace is: a sleep of `renewDuration` of the bootstrap lease, then for each
answer in turn the `RenewSelf(0)` call followed by a sleep of `renewDuration`
of the lease of that very answer. With a bootstrap that adopts an unwrapped
secret whose `Auth.LeaseDuration` is 3600, the sleep before the first
`RenewSelf` call is 3240 seconds. -/
theorem token_sleeps_follow_latest_lease (secret : Secret) (lease0 : Int)
    (h0 : authLease (some secret) = some lease0) (good : List (Secret × Int))
    (hgood : ∀ p ∈ good, authLease (some p.1) = some p.2) (rest : List CallResult) :
    (∃ tl, (tokenCycle (some secret) (good.map (fun p => Except.ok (some p.1)) ++ rest)).events =
      .sleep (renewDuration lease0) ::
        ((good.map (fun p => [Event.renewSelf 0 true, Event.sleep (renewDuration p.2)])).flatten
          ++ tl)) ∧
    sleeps (tokenCycle (some secret) (good.map (fun p => Except.ok (some p.1)))).events =
      (lease0 :: good.map (fun p => p.2)).map renewDuration ∧
    (∀ (f : Flags) (env : BootEnv) (s : Secret) (a : SecretAuth) (r : CallResult)
      (script : List CallResult),
      f.showVersion = false → f.valid → env.envToken ≠ "" → env.newClient = none →
      env.unwrap env.envToken = .ok (some s) → s.Auth = some a → a.LeaseDuration = 3600 →
      ∃ ok tl, (mainToken f env (r :: script)).events =
        .sleep (3240 * second) :: .renewSelf 0 ok :: tl) := by
  refine ⟨?_, ?_, ?_⟩
  · simp only [tokenCycle, h0]
    exact tokenLoop_good good rest hgood _
  · simp only [tokenCycle, h0]
    have key : ∀ (g : List (Secret × Int)), (∀ p ∈ g, authLease (some p.1) = some p.2) →
        ∀ iv : Int, sleeps (tokenLoop iv (g.map (fun p => Except.ok (some p.1)))).events =
          iv :: (g.map (fun p => p.2)).map renewDuration := by
      intro g
      induction g with
      | nil => intro _ iv; simp [tokenLoop, sleeps]
      | cons p g ih =>
        intro hg iv
        have hp := hg p (List.mem_cons_self _ _)
        have := ih (fun e he => hg e (List.mem_cons_of_mem _ he)) (renewDuration p.2)
        rw [List.map_cons]
        simp only [tokenLoop, hp]
        simp only [sleeps] at this ⊢
        simp [this]
    simpa using key good hgood (renewDuration lease0)
  · intro f env s a r script hv hvalid htok hcl hu ha h3600
    have h := startup_unwrapped f env s a hv hvalid htok hcl hu ha
    have hl : authLease (some s) = some 3600 := by simp [authLease, ha, h3600]
    have hr : renewDuration 3600 = 3240 * second := by decide
    simp only [mainToken, h, tokenCycle, hl, hr]
    exact tokenLoop_head_two _ _ _

/-- Witness for C5: a bootstrap lease of one hour, then an answer with a lease
of two hours. -/
theorem token_sleeps_follow_latest_lease_witness :
    authLease (some wrappedSecret) = some 3600 ∧
    (∀ p ∈ [(lookedUpSecret, (7200 : Int))], authLease (some p.1) = some p.2) ∧
    sleeps (tokenCycle (some wrappedSecret) [.ok (some lookedUpSecret)]).events =
      [renewDuration 3600, renewDuration 7200] :=
  ⟨by rfl, by simp [authLease, lookedUpSecret],
    (token_sleeps_follow_latest_lease wrappedSecret 3600 (by rfl) [(lookedUpSecret, 7200)]
      (by simp [authLease, lookedUpSecret]) []).2.1⟩

theorem issuanceCycle_good (f : Flags) (path : String) (args : Args) (fs : FS)
    (good rest : List IterEnv)
    (hgood : ∀ env ∈ good, ∃ iv, (renewal f path args env fs).next = .ok iv) :
    ∃ tl, (issuanceCycle f path args (good ++ rest) fs).events =
      (good.map (fun env => (renewal f path args env fs).events ++
        [Event.sleep (renewDuration (bundleLease env))])).flatten ++ tl := by
  cases good with
  | nil => exact ⟨(issuanceCycle f path args rest fs).events, by simp⟩
  | cons env g =>
    obtain ⟨iv1, h1⟩ := hgood env (List.mem_cons_self _ _)
    have hlease := renewal_ok_lease f path args env fs iv1 h1
    obtain ⟨tl, htl⟩ := issuanceLoop_good f path args fs g rest
      (fun e he => hgood e (List.mem_cons_of_mem _ he)) iv1 (renewal f path args env fs).fs
    refine ⟨tl, ?_⟩
    subst hlease
    rw [List.cons_append]
    simp only [issuanceCycle, h1]
    rw [htl]
    simp

theorem renewal_head (f : Flags) (path : String) (args : Args) (env : IterEnv) (fs : FS) :
    ∃ ok tl, (renewal f path args env fs).events = .issue path args ok :: tl := by
  rcases hi : env.issue with e | _ | s
  · exact ⟨false, [.exit (.fatal "Unable to get keys")], by simp [renewal, hi]⟩
  · exact ⟨true, [.exit .runtimePanic], by simp [renewal, hi]⟩
  · refine ⟨true, ((renewal f path args env fs).events).tail, ?_⟩
    rcases hc : stringField s "certificate" with _ | c
    · simp [renewal, hi, hc]
    · rcases hwc : env.cert with _ | e | ⟨n, e⟩
      · rcases ha : stringField s "issuing_ca" with _ | a
        · simp [renewal, hi, hc, hwc, ha, writeFile]
        · rcases hwa : env.ca with _ | e | ⟨n, e⟩
          · rcases hk : stringField s "private_key" with _ | k
            · simp [renewal, hi, hc, hwc, ha, hwa, hk, writeFile]
            · rcases hwk : env.key with _ | e | ⟨n, e⟩
              · by_cases hcmd : f.command = ""
                · simp [renewal, renewalHook, hi, hc, hwc, ha, hwa, hk, hwk, writeFile, hcmd]
                · rcases hh : env.hookErr with _ | e
                  · simp [renewal, renewalHook, hi, hc, hwc, ha, hwa, hk, hwk, hh, writeFile,
                      hcmd]
                  · simp [renewal, renewalHook, hi, hc, hwc, ha, hwa, hk, hwk, hh, writeFile,
                      hcmd]
              · simp [renewal, hi, hc, hwc, ha, hwa, hk, hwk, writeFile]
              · simp [renewal, hi, hc, hwc, ha, hwa, hk, hwk, writeFile]
          · simp [renewal, hi, hc, hwc, ha, hwa, writeFile]
          · simp [renewal, hi, hc, hwc, ha, hwa, writeFile]
      · simp [renewal, hi, hc, hwc, writeFile]
      · simp [renewal, hi, hc, hwc, writeFile]

theorem issuanceCycle_head (f : Flags) (path : String) (args : Args) (env : IterEnv)
    (rest : List IterEnv) (fs : FS) :
    ∃ ok tl, (issuanceCycle f path args (env :: rest) fs).events = .issue path args ok :: tl := by
  obtain ⟨ok, tl, h⟩ := renewal_head f path args env fs
  rcases hn : (renewal f path args env fs).next with how | interval
  · exact ⟨ok, tl, by simp [issuanceCycle, hn, h]⟩
  · exact ⟨ok, tl ++ (issuanceLoop f path args interval rest (renewal f path args env fs).fs).events,
      by simp [issuanceCycle, hn, h]⟩

/-- C6: the issuance cycle starts with the issue call, with no sleep before
it. When the iterations of a first part of the script all complete, the trace
begins with, for each of them in turn, the events of the iteration followed
by a sleep of `renewDuration` of the lease duration returned with the bundle
of that very iteration; a completed iteration holds no sleep itself, starts
with its issue call, and runs the command exactly once when one is configured
(never otherwise). A lease duration of 86400 gives a sleep of 77760 seconds.
Whether an iteration completes, and its events, do not depend on the files
on disk (`renewal_events_next_indep`), so completion is asked for on the
initial file system. -/
theorem issuance_sleeps_follow_latest_bundle (f : Flags) (path : String) (args : Args)
    (fs : FS) (good rest : List IterEnv)
    (hgood : ∀ env ∈ good, ∃ iv, (renewal f path args env fs).next = .ok iv) :
    (∀ env script fs1, ∃ ok tl,
      (issuanceCycle f path args (env :: script) fs1).events = .issue path args ok :: tl) ∧
    (∃ tl, (issuanceCycle f path args (good ++ rest) fs).events =
      (good.map (fun env => (renewal f path args env fs).events ++
        [Event.sleep (renewDuration (bundleLease env))])).flatten ++ tl) ∧
    (∀ env ∈ good,
      sleeps (renewal f path args env fs).events = [] ∧
      (∃ tl, (renewal f path args env fs).events = .issue path args true :: tl) ∧
      execs (renewal f path args env fs).events =
        if f.command = "" then [] else [["/bin/bash", "-c", f.command]]) ∧
    renewDuration 86400 = 77760 * second := by
  refine ⟨fun env script fs1 => issuanceCycle_head f path args env script fs1,
    issuanceCycle_good f path args fs good rest hgood, ?_, by decide⟩
  intro env henv
  obtain ⟨iv, hiv⟩ := hgood env henv
  obtain ⟨s, c, a, k, hi, hc, ha, hk, hwc, hwa, hwk, hh, -⟩ :=
    (renewal_ok_iff f path args env fs iv).1 hiv
  have hr := renewal_ok f path args env fs s c a k hi hc ha hk hwc hwa hwk hh
  rw [hr]
  by_cases hcmd : f.command = "" <;> simp [sleeps, execs, hcmd]

/-- Witness for C6: scenario B. -/
theorem issuance_sleeps_follow_latest_bundle_witness :
    (∀ env ∈ [scenarioIter], ∃ iv,
      (renewal scenarioFlags "pki/issue/server" [] env scenarioFS).next = .ok iv) ∧
    (issuanceCycle scenarioFlags "pki/issue/server" [] [scenarioIter] scenarioFS).events =
      [.issue "pki/issue/server" [] true, .writeFile "cert.pem" "CERT" filePerm true,
        .writeFile "ca.pem" "CA" filePerm true, .writeFile "key.pem" "KEY" filePerm true,
        .exec ["/bin/bash", "-c", "reload"] true, .sleep (77760 * second)] ∧
    renewDuration 86400 = 77760 * second :=
  ⟨by simp; exact ⟨_, rfl⟩, by decide,
    (issuance_sleeps_follow_latest_bundle scenarioFlags "pki/issue/server" [] scenarioFS
      [scenarioIter] [] (by simp; exact ⟨_, rfl⟩)).2.2.2⟩

/-- C8: when the issue call of an iteration fails, the iteration consists of
that one call and `log.Fatal`: no file is written, the command is not run, the
call is not repeated, the file system is left as it was, and the cycle ends
there with the process exit, whatever the script still holds, both for the
first iteration and for a later one. -/
theorem issue_failure_is_fatal (f : Flags) (path : String) (args : Args) (env : IterEnv)
    (fs : FS) (e : Err) (h : env.issue = .error e) :
    (renewal f path args env fs).events =
      [.issue path args false, .exit (.fatal "Unable to get keys")] ∧
    writes (renewal f path args env fs).events = [] ∧
    execs (renewal f path args env fs).events = [] ∧
    issues (renewal f path args env fs).events = [(path, args)] ∧
    (renewal f path args env fs).fs = fs ∧
    (renewal f path args env fs).next = .error (.fatal "Unable to get keys") ∧
    (∀ rest,
      (issuanceCycle f path args (env :: rest) fs).events =
        [.issue path args false, .exit (.fatal "Unable to get keys")] ∧
      (issuanceCycle f path args (env :: rest) fs).fs = fs ∧
      (issuanceCycle f path args (env :: rest) fs).exit = some (.fatal "Unable to get keys")) ∧
    (∀ iv rest,
      (issuanceLoop f path args iv (env :: rest) fs).events =
        [.sleep iv, .issue path args false, .exit (.fatal "Unable to get keys")] ∧
      (issuanceLoop f path args iv (env :: rest) fs).fs = fs ∧
      (issuanceLoop f path args iv (env :: rest) fs).exit =
        some (.fatal "Unable to get keys")) := by
  have hr := renewal_issue_error f path args env fs e h
  refine ⟨by rw [hr], by rw [hr]; simp [writes], by rw [hr]; simp [execs],
    by rw [hr]; simp [issues], by rw [hr], by rw [hr], ?_, ?_⟩
  · intro rest
    simp [issuanceCycle, hr]
  · intro iv rest
    simp [issuanceLoop, hr]

/-- Witness for C8: scenario C leaves the old key on disk
and ends the process although the script holds a further iteration. -/
theorem issue_failure_is_fatal_witness :
    issueDenied.issue = .error "permission denied" ∧
    (issuanceCycle scenarioFlags "pki/issue/server" [] [issueDenied, scenarioIter]
      scenarioFS).events =
      [.issue "pki/issue/server" [] false, .exit (.fatal "Unable to get keys")] :=
  ⟨rfl, ((issue_failure_is_fatal scenarioFlags "pki/issue/server" [] issueDenied scenarioFS
    "permission denied" rfl).2.2.2.2.2.2.1 [scenarioIter]).1⟩

/-- C7 (as amended): the three files are written in the order certificate, CA,
key, and a failure of any of the three writes stops the iteration: no later
write is attempted, the command is not run, and `log.Fatal` ends the process
there, whatever the script still holds. In an iteration in which the
certificate and CA writes succeed and the key write fails, the file system
is the one left by the two writes and the failed third; when the three paths
are pairwise distinct, the certificate and CA files hold the bytes of the new
fields, and the key file holds its previous content if it could not be
opened, and otherwise the first bytes of the new key that were written after
the file was truncated. -/
theorem write_failure_stops_iteration (f : Flags) (path : String) (args : Args)
    (env : IterEnv) (fs : FS) (s : Secret) (c : String)
    (hi : env.issue = .ok (some s)) (hc : stringField s "certificate" = some c) :
    (env.cert ≠ .ok →
      (renewal f path args env fs).events =
        [.issue path args true, .writeFile f.certFile c filePerm false,
          .exit (.fatal "Failed to write certificate")] ∧
      writes (renewal f path args env fs).events = [(f.certFile, c)] ∧
      execs (renewal f path args env fs).events = [] ∧
      (renewal f path args env fs).next = .error (.fatal "Failed to write certificate") ∧
      (renewal f path args env fs).fs = (writeFile fs f.certFile c env.cert).1 ∧
      (∀ rest,
        (issuanceCycle f path args (env :: rest) fs).events =
          (renewal f path args env fs).events ∧
        (issuanceCycle f path args (env :: rest) fs).exit =
          some (.fatal "Failed to write certificate")) ∧
      (∀ iv rest,
        (issuanceLoop f path args iv (env :: rest) fs).events =
          .sleep iv :: (renewal f path args env fs).events ∧
        (issuanceLoop f path args iv (env :: rest) fs).exit =
          some (.fatal "Failed to write certificate"))) ∧
    (∀ a, env.cert = .ok → stringField s "issuing_ca" = some a → env.ca ≠ .ok →
      (renewal f path args env fs).events =
        [.issue path args true, .writeFile f.certFile c filePerm true,
          .writeFile f.caFile a filePerm false, .exit (.fatal "Failed to write ca")] ∧
      writes (renewal f path args env fs).events = [(f.certFile, c), (f.caFile, a)] ∧
      execs (renewal f path args env fs).events = [] ∧
      (renewal f path args env fs).next = .error (.fatal "Failed to write ca") ∧
      (renewal f path args env fs).fs =
        (writeFile (writeFile fs f.certFile c .ok).1 f.caFile a env.ca).1 ∧
      (∀ rest,
        (issuanceCycle f path args (env :: rest) fs).events =
          (renewal f path args env fs).events ∧
        (issuanceCycle f path args (env :: rest) fs).exit =
          some (.fatal "Failed to write ca")) ∧
      (∀ iv rest,
        (issuanceLoop f path args iv (env :: rest) fs).events =
          .sleep iv :: (renewal f path args env fs).events ∧
        (issuanceLoop f path args iv (env :: rest) fs).exit =
          some (.fatal "Failed to write ca"))) ∧
    (∀ a k, env.cert = .ok → stringField s "issuing_ca" = some a → env.ca = .ok →
      stringField s "private_key" = some k → env.key ≠ .ok →
      (renewal f path args env fs).events =
        [.issue path args true, .writeFile f.certFile c filePerm true,
          .writeFile f.caFile a filePerm true, .writeFile f.keyFile k filePerm false,
          .exit (.fatal "Failed to write key")] ∧
      writes (renewal f path args env fs).events =
        [(f.certFile, c), (f.caFile, a), (f.keyFile, k)] ∧
      execs (renewal f path args env fs).events = [] ∧
      (renewal f path args env fs).next = .error (.fatal "Failed to write key") ∧
      (renewal f path args env fs).fs =
        (writeFile (writeFile (writeFile fs f.certFile c .ok).1 f.caFile a .ok).1
          f.keyFile k env.key).1 ∧
      (∀ rest,
        (issuanceCycle f path args (env :: rest) fs).events =
          (renewal f path args env fs).events ∧
        (issuanceCycle f path args (env :: rest) fs).exit =
          some (.fatal "Failed to write key")) ∧
      (∀ iv rest,
        (issuanceLoop f path args iv (env :: rest) fs).events =
          .sleep iv :: (renewal f path args env fs).events ∧
        (issuanceLoop f path args iv (env :: rest) fs).exit =
          some (.fatal "Failed to write key")) ∧
      (f.certFile ≠ f.caFile → f.certFile ≠ f.keyFile → f.caFile ≠ f.keyFile →
        (renewal f path args env fs).fs f.certFile = some (goBytes c) ∧
        (renewal f path args env fs).fs f.caFile = some (goBytes a) ∧
        (renewal f path args env fs).fs f.keyFile =
          (match env.key with
            | .openFailed _ => fs f.keyFile
            | .writeFailed n _ => some ((goBytes k).take n)
            | .ok => some (goBytes k)))) := by
  refine ⟨?_, ?_, ?_⟩
  · intro hwc
    obtain ⟨hev, hnext, hfs⟩ := renewal_cert_failed f path args env fs s c hi hc hwc
    obtain ⟨hcy, hlo⟩ := renewal_error_ends_cycle f path args env fs _ hnext
    exact ⟨hev, by rw [hev]; simp [writes], by rw [hev]; simp [execs], hnext, hfs, hcy, hlo⟩
  · intro a hwc ha hwa
    obtain ⟨hev, hnext, hfs⟩ := renewal_ca_failed f path args env fs s c a hi hc ha hwc hwa
    obtain ⟨hcy, hlo⟩ := renewal_error_ends_cycle f path args env fs _ hnext
    exact ⟨hev, by rw [hev]; simp [writes], by rw [hev]; simp [execs], hnext, hfs, hcy, hlo⟩
  · intro a k hwc ha hwa hk hwk
    obtain ⟨hev, hnext, hfs⟩ :=
      renewal_key_failed f path args env fs s c a k hi hc ha hk hwc hwa hwk
    obtain ⟨hcy, hlo⟩ := renewal_error_ends_cycle f path args env fs _ hnext
    refine ⟨hev, by rw [hev]; simp [writes], by rw [hev]; simp [execs], hnext, hfs, hcy, hlo,
      ?_⟩
    intro h1 h2 h3
    rw [hfs]
    rcases hwk2 : env.key with _ | e | ⟨n, e⟩
    · exact absurd hwk2 hwk
    · simp [writeFile, h1, h2, h3, Ne.symm h2, Ne.symm h3]
    · simp [writeFile, h1, h2, h3]

/-- Witness for C7: a failing certificate write ends the iteration before the
CA and key writes, and a key write that fails after three bytes leaves the
new certificate and CA and, in the key file, the first three bytes of the
new key, which end inside its second character. -/
theorem write_failure_stops_iteration_witness :
    (certWriteFails.issue = .ok (some scenarioBundle) ∧
      stringField scenarioBundle "certificate" = some "CERT" ∧ certWriteFails.cert ≠ .ok ∧
      (renewal scenarioFlags "pki/issue/server" [] certWriteFails scenarioFS).events =
        [.issue "pki/issue/server" [] true, .writeFile "cert.pem" "CERT" filePerm false,
          .exit (.fatal "Failed to write certificate")]) ∧
    (keyWriteCut.issue = .ok (some accentBundle) ∧
      stringField accentBundle "certificate" = some "CERT" ∧
      stringField accentBundle "issuing_ca" = some "CA" ∧
      stringField accentBundle "private_key" = some "éé" ∧
      keyWriteCut.cert = .ok ∧ keyWriteCut.ca = .ok ∧ keyWriteCut.key ≠ .ok ∧
      (renewal scenarioFlags "pki/issue/server" [] keyWriteCut scenarioFS).fs "cert.pem" =
        some (goBytes "CERT") ∧
      (renewal scenarioFlags "pki/issue/server" [] keyWriteCut scenarioFS).fs "ca.pem" =
        some (goBytes "CA") ∧
      (renewal scenarioFlags "pki/issue/server" [] keyWriteCut scenarioFS).fs "key.pem" =
        some [195, 169, 195]) :=
  ⟨⟨rfl, by decide, by decide,
      ((write_failure_stops_iteration scenarioFlags "pki/issue/server" [] certWriteFails
        scenarioFS scenarioBundle "CERT" rfl (by decide)).1 (by decide)).1⟩,
    ⟨rfl, by decide, by decide, by decide, rfl, rfl, by decide,
      ((write_failure_stops_iteration scenarioFlags "pki/issue/server" [] keyWriteCut
        scenarioFS accentBundle "CERT" rfl (by decide)).2.2 "CA" "éé" rfl (by decide) rfl
        (by decide) (by decide)).2.2.2.2.2.2.2 (by decide) (by decide) (by decide)⟩⟩

/-- C7 as stated fails in two ways. With three distinct paths, a key write that
fails after the file was truncated leaves the key file empty instead of
holding the earlier key. With one path given for both the certificate and the
CA, that file holds the CA and not the certificate. -/
theorem key_write_failure_counterexample :
    (okWrites (renewal scenarioFlags "pki/issue/server" [] keyWriteFails scenarioFS).events =
        [("cert.pem", "CERT"), ("ca.pem", "CA")] ∧
      Event.writeFile "key.pem" "KEY" filePerm false ∈
        (renewal scenarioFlags "pki/issue/server" [] keyWriteFails scenarioFS).events ∧
      scenarioFS "key.pem" = some (goBytes "OLDKEY") ∧
      (renewal scenarioFlags "pki/issue/server" [] keyWriteFails scenarioFS).fs "key.pem" =
        some [] ∧
      (renewal scenarioFlags "pki/issue/server" [] keyWriteFails scenarioFS).fs "key.pem" ≠
        scenarioFS "key.pem") ∧
    (okWrites (renewal aliasedFlags "pki/issue/server" [] keyOpenFails scenarioFS).events =
        [("bundle.pem", "CERT"), ("bundle.pem", "CA")] ∧
      Event.writeFile "key.pem" "KEY" filePerm false ∈
        (renewal aliasedFlags "pki/issue/server" [] keyOpenFails scenarioFS).events ∧
      stringField scenarioBundle "certificate" = some "CERT" ∧
      (renewal aliasedFlags "pki/issue/server" [] keyOpenFails scenarioFS).fs
        aliasedFlags.certFile = some (goBytes "CA") ∧
      (renewal aliasedFlags "pki/issue/server" [] keyOpenFails scenarioFS).fs
        aliasedFlags.certFile ≠ some (goBytes "CERT")) := by
  decide

theorem issuanceLoop_next (f : Flags) (path : String) (args : Args) (env env1 : IterEnv)
    (rest : List IterEnv) (fs : FS) (iv0 iv : Int)
    (h : (renewal f path args env fs).next = .ok iv) :
    ∃ ok tl, (issuanceLoop f path args iv0 (env :: env1 :: rest) fs).events =
      .sleep iv0 :: ((renewal f path args env fs).events ++
        .sleep iv :: .issue path args ok :: tl) := by
  obtain ⟨ok, tl0, h0⟩ := renewal_head f path args env1 (renewal f path args env fs).fs
  rcases hn : (renewal f path args env1 (renewal f path args env fs).fs).next with how | iv1
  · exact ⟨ok, tl0, by simp [issuanceLoop, h, hn, h0]⟩
  · exact ⟨ok, tl0 ++ (issuanceLoop f path args iv1 rest
      (renewal f path args env1 (renewal f path args env fs).fs).fs).events,
      by simp [issuanceLoop, h, hn, h0]⟩

theorem issuanceCycle_next (f : Flags) (path : String) (args : Args) (env env1 : IterEnv)
    (rest : List IterEnv) (fs : FS) (iv : Int)
    (h : (renewal f path args env fs).next = .ok iv) :
    ∃ ok tl, (issuanceCycle f path args (env :: env1 :: rest) fs).events =
      (renewal f path args env fs).events ++ .sleep iv :: .issue path args ok :: tl := by
  obtain ⟨ok, tl0, h0⟩ := renewal_head f path args env1 (renewal f path args env fs).fs
  rcases hn : (renewal f path args env1 (renewal f path args env fs).fs).next with how | iv1
  · exact ⟨ok, tl0, by simp [issuanceCycle, issuanceLoop, h, hn, h0]⟩
  · exact ⟨ok, tl0 ++ (issuanceLoop f path args iv1 rest
      (renewal f path args env1 (renewal f path args env fs).fs).fs).events,
      by simp [issuanceCycle, issuanceLoop, h, hn, h0]⟩

/-- C9 (as amended): a zero lease is not guarded. `renewDuration 0` is zero, and
in both cycles a lease of zero is followed by a sleep of zero and then by the
next call: the renewal goroutine started from a zero lease, or answered with
one, sleeps zero and calls `RenewSelf` again, and an iteration of the issuance
cycle that completes with a bundle lease of zero is followed by a sleep of
zero and the next issue call. -/
theorem zero_lease_is_not_guarded :
    renewDuration 0 = 0 ∧
    (∀ secret r rest, authLease secret = some 0 →
      ∃ ok tl, (tokenCycle secret (r :: rest)).events = .sleep 0 :: .renewSelf 0 ok :: tl) ∧
    (∀ iv newSecret r rest, authLease newSecret = some 0 →
      ∃ ok tl, (tokenLoop iv (.ok newSecret :: r :: rest)).events =
        .sleep iv :: .renewSelf 0 true :: .sleep 0 :: .renewSelf 0 ok :: tl) ∧
    (∀ f path args env env1 rest fs iv,
      (renewal f path args env fs).next = .ok iv → bundleLease env = 0 →
      ∃ ok tl, (issuanceCycle f path args (env :: env1 :: rest) fs).events =
        (renewal f path args env fs).events ++ .sleep 0 :: .issue path args ok :: tl) ∧
    (∀ f path args env env1 rest fs iv0 iv,
      (renewal f path args env fs).next = .ok iv → bundleLease env = 0 →
      ∃ ok tl, (issuanceLoop f path args iv0 (env :: env1 :: rest) fs).events =
        .sleep iv0 :: ((renewal f path args env fs).events ++
          .sleep 0 :: .issue path args ok :: tl)) := by
  have hz : renewDuration 0 = 0 := by decide
  refine ⟨hz, ?_, ?_, ?_, ?_⟩
  · intro secret r rest h
    simp only [tokenCycle, h, hz]
    exact tokenLoop_head_two 0 r rest
  · intro iv newSecret r rest h
    obtain ⟨ok, tl, htl⟩ := tokenLoop_head_two 0 r rest
    have hstep : (tokenLoop iv (.ok newSecret :: r :: rest)).events =
        .sleep iv :: .renewSelf 0 true :: (tokenLoop (renewDuration 0) (r :: rest)).events := by
      simp only [tokenLoop, h]
    exact ⟨ok, tl, by rw [hstep, hz, htl]⟩
  · intro f path args env env1 rest fs iv h hl
    have hiv := renewal_ok_lease f path args env fs iv h
    rw [hl, hz] at hiv
    subst hiv
    exact issuanceCycle_next f path args env env1 rest fs 0 h
  · intro f path args env env1 rest fs iv0 iv h hl
    have hiv := renewal_ok_lease f path args env fs iv h
    rw [hl, hz] at hiv
    subst hiv
    exact issuanceLoop_next f path args env env1 rest fs iv0 0 h

/-- Witness for C9: a token with a zero lease is renewed at once. -/
theorem zero_lease_is_not_guarded_witness :
    authLease (some zeroLeaseToken) = some 0 ∧
    ∃ ok tl, (tokenCycle (some zeroLeaseToken) [.ok (some zeroLeaseToken)]).events =
      .sleep 0 :: .renewSelf 0 ok :: tl :=
  ⟨rfl, zero_lease_is_not_guarded.2.1 (some zeroLeaseToken) (.ok (some zeroLeaseToken)) [] rfl⟩

/-- C9 as stated fails: with a zero lease both cycles go on with zero delay.
The renewal goroutine started from a zero lease and answered with zero leases
calls `RenewSelf` after each sleep of zero, and the issuance cycle granted a
zero lease issues again after a sleep of zero. -/
theorem zero_lease_tight_loop :
    authLease (some zeroLeaseToken) = some 0 ∧
    (tokenCycle (some zeroLeaseToken)
        [.ok (some zeroLeaseToken), .ok (some zeroLeaseToken)]).events =
      [.sleep 0, .renewSelf 0 true, .sleep 0, .renewSelf 0 true, .sleep 0] ∧
    bundleLease zeroLeaseIter = 0 ∧
    (issuanceCycle scenarioFlags "pki/issue/server" [] [zeroLeaseIter, zeroLeaseIter]
        scenarioFS).events =
      [.issue "pki/issue/server" [] true, .writeFile "cert.pem" "CERT" filePerm true,
        .writeFile "ca.pem" "CA" filePerm true, .writeFile "key.pem" "KEY" filePerm true,
        .exec ["/bin/bash", "-c", "reload"] true, .sleep 0,
        .issue "pki/issue/server" [] true, .writeFile "cert.pem" "CERT" filePerm true,
        .writeFile "ca.pem" "CA" filePerm true, .writeFile "key.pem" "KEY" filePerm true,
        .exec ["/bin/bash", "-c", "reload"] true, .sleep 0] := by
  decide

theorem renewal_issues (f : Flags) (path : String) (args : Args) (env : IterEnv) (fs : FS) :
    issues (renewal f path args env fs).events = [(path, args)] := by
  rcases hi : env.issue with e | _ | s
  · simp [renewal, hi, issues]
  · simp [renewal, hi, issues]
  · rcases hc : stringField s "certificate" with _ | c
    · simp [renewal, hi, hc, issues]
    · rcases hwc : env.cert with _ | e | ⟨n, e⟩
      · rcases ha : stringField s "issuing_ca" with _ | a
        · simp [renewal, hi, hc, hwc, ha, writeFile, issues]
        · rcases hwa : env.ca with _ | e | ⟨n, e⟩
          · rcases hk : stringField s "private_key" with _ | k
            · simp [renewal, hi, hc, hwc, ha, hwa, hk, writeFile, issues]
            · rcases hwk : env.key with _ | e | ⟨n, e⟩
              · by_cases hcmd : f.command = ""
                · simp [renewal, renewalHook, hi, hc, hwc, ha, hwa, hk, hwk, writeFile, hcmd,
                    issues]
                · rcases hh : env.hookErr with _ | e
                  · simp [renewal, renewalHook, hi, hc, hwc, ha, hwa, hk, hwk, hh, writeFile,
                      hcmd, issues]
                  · simp [renewal, renewalHook, hi, hc, hwc, ha, hwa, hk, hwk, hh, writeFile,
                      hcmd, issues]
              · simp [renewal, hi, hc, hwc, ha, hwa, hk, hwk, writeFile, issues]
              · simp [renewal, hi, hc, hwc, ha, hwa, hk, hwk, writeFile, issues]
          · simp [renewal, hi, hc, hwc, ha, hwa, writeFile, issues]
          · simp [renewal, hi, hc, hwc, ha, hwa, writeFile, issues]
      · simp [renewal, hi, hc, hwc, writeFile, issues]
      · simp [renewal, hi, hc, hwc, writeFile, issues]

theorem issues_append (xs ys : List Event) : issues (xs ++ ys) = issues xs ++ issues ys := by
  simp [issues]

theorem issuanceLoop_issues (f : Flags) (path : String) (args : Args) (script : List IterEnv) :
    ∀ (iv : Int) (fs : FS), ∀ pa ∈ issues (issuanceLoop f path args iv script fs).events,
      pa = (path, args) := by
  induction script with
  | nil => intro iv fs pa h; simp [issuanceLoop, issues] at h
  | cons env rest ih =>
    intro iv fs pa h
    have hr := renewal_issues f path args env fs
    rcases hn : (renewal f path args env fs).next with how | iv1
    · simp only [issuanceLoop, hn] at h
      rw [show (Event.sleep iv :: (renewal f path args env fs).events) =
        [Event.sleep iv] ++ (renewal f path args env fs).events from rfl, issues_append, hr] at h
      simpa [issues] using h
    · simp only [issuanceLoop, hn] at h
      rw [show (Event.sleep iv :: ((renewal f path args env fs).events ++
          (issuanceLoop f path args iv1 rest (renewal f path args env fs).fs).events)) =
        [Event.sleep iv] ++ ((renewal f path args env fs).events ++
          (issuanceLoop f path args iv1 rest (renewal f path args env fs).fs).events) from rfl,
        issues_append, issues_append, hr] at h
      simp only [issues, List.filterMap_cons, List.filterMap_nil, List.nil_append,
        List.mem_append, List.mem_singleton] at h
      rcases h with h | h
      · exact h
      · exact ih iv1 _ pa h

theorem issuanceCycle_issues (f : Flags) (path : String) (args : Args) (script : List IterEnv)
    (fs : FS) : ∀ pa ∈ issues (issuanceCycle f path args script fs).events, pa = (path, args) := by
  cases script with
  | nil => intro pa h; simp [issuanceCycle, issues] at h
  | cons env rest =>
    intro pa h
    have hr := renewal_issues f path args env fs
    rcases hn : (renewal f path args env fs).next with how | iv1
    · simp only [issuanceCycle, hn, hr] at h
      simpa using h
    · simp only [issuanceCycle, hn, issues_append, hr, List.mem_append,
        List.mem_singleton] at h
      rcases h with h | h
      · exact h
      · exact issuanceLoop_issues f path args rest iv1 _ pa h

theorem startup_ok_request (f : Flags) (env : BootEnv) (st : Started)
    (h : (startup f env).outcome = .ok st) :
    st.vaultPath = vaultPath f ∧ st.vaultArgs = vaultArgs env.durationString f := by
  unfold startup at h
  split at h
  · simp at h
  · split at h
    · simp at h
    · simp only at h
      split at h
      · simp at h
      · split at h
        · simp at h
        · split at h
          · simp at h
          · split at h
            · simp at h
            · simp only [Except.ok.injEq] at h
              subst h
              exact ⟨rfl, rfl⟩
          · split at h
            · simp at h
            · simp only [Except.ok.injEq] at h
              subst h
              exact ⟨rfl, rfl⟩

theorem startup_ok_valid (f : Flags) (env : BootEnv) (st : Started)
    (h : (startup f env).outcome = .ok st) : f.valid := by
  unfold Flags.valid
  intro hbad
  unfold startup at h
  split at h
  · simp at h
  · simp [hbad] at h

/-- C10: for all flags, and so for those that pass validation, the request
map holds `common_name` with the `-cn` value and `ip_sans` with the
`-ip-sans` value, holds `alt_names`
(with the `-alt-names` value) exactly when that value is not empty, holds `ttl`
(with the formatted `-certTTL` value) exactly when that value is not zero, and
holds no other key; the path is the PKI path, `/issue/` and the role; and
every issue request of the issuance cycle that `main` runs carries this path
and this map; start-up completes only for flags that pass validation, and
the cycle it starts opens with an issue request for this path and map. -/
theorem issuance_request_contract (f : Flags) (env : BootEnv) :
    (vaultArgs env.durationString f).map Prod.fst =
      ["common_name", "ip_sans"] ++ (if f.certAltNames ≠ "" then ["alt_names"] else []) ++
        (if f.certTTL ≠ 0 then ["ttl"] else []) ∧
    (vaultArgs env.durationString f).lookup "common_name" = some f.certCN ∧
    (vaultArgs env.durationString f).lookup "ip_sans" = some f.certIPSans ∧
    (vaultArgs env.durationString f).lookup "alt_names" =
      (if f.certAltNames ≠ "" then some f.certAltNames else none) ∧
    (vaultArgs env.durationString f).lookup "ttl" =
      (if f.certTTL ≠ 0 then some (env.durationString f.certTTL) else none) ∧
    (∀ k, ((vaultArgs env.durationString f).lookup k).isSome →
      k = "common_name" ∨ k = "ip_sans" ∨ k = "alt_names" ∨ k = "ttl") ∧
    vaultPath f = f.vaultPKIPath ++ "/issue/" ++ f.vaultRole ∧
    (∀ script fs, ∀ pa ∈ issues (mainIssuance f env script fs).events,
      pa = (vaultPath f, vaultArgs env.durationString f)) ∧
    (∀ st, (startup f env).outcome = .ok st → f.valid ∧ ∀ env1 script fs, ∃ ok tl,
      (mainIssuance f env (env1 :: script) fs).events =
        .issue (vaultPath f) (vaultArgs env.durationString f) ok :: tl) := by
  have hargs : vaultArgs env.durationString f =
      [("common_name", f.certCN), ("ip_sans", f.certIPSans)] ++
        (if f.certAltNames ≠ "" then [("alt_names", f.certAltNames)] else []) ++
        (if f.certTTL ≠ 0 then [("ttl", env.durationString f.certTTL)] else []) := by
    unfold vaultArgs
    by_cases h1 : f.certAltNames = "" <;> by_cases h2 : f.certTTL = 0 <;>
      simp [h1, h2, Args.set]
  refine ⟨?_, ?_, ?_, ?_, ?_, ?_, rfl, ?_, ?_⟩
  · rw [hargs]
    by_cases h1 : f.certAltNames = "" <;> by_cases h2 : f.certTTL = 0 <;> simp [h1, h2]
  · rw [hargs]
    simp [List.lookup]
  · rw [hargs]
    simp [List.lookup]
  · rw [hargs]
    by_cases h1 : f.certAltNames = "" <;> by_cases h2 : f.certTTL = 0 <;>
      simp [h1, h2, List.lookup]
  · rw [hargs]
    by_cases h1 : f.certAltNames = "" <;> by_cases h2 : f.certTTL = 0 <;>
      simp [h1, h2, List.lookup]
  · intro k hk
    rw [hargs] at hk
    by_contra hne
    push_neg at hne
    obtain ⟨n1, n2, n3, n4⟩ := hne
    have b1 : (k == "common_name") = false := by simp [n1]
    have b2 : (k == "ip_sans") = false := by simp [n2]
    have b3 : (k == "alt_names") = false := by simp [n3]
    have b4 : (k == "ttl") = false := by simp [n4]
    by_cases h1 : f.certAltNames = "" <;> by_cases h2 : f.certTTL = 0 <;>
      simp [h1, h2, List.lookup, b1, b2, b3, b4] at hk
  · intro script fs pa hpa
    unfold mainIssuance at hpa
    rcases ho : (startup f env).outcome with how | st
    · simp [ho, issues] at hpa
    · obtain ⟨hp, ha⟩ := startup_ok_request f env st ho
      simp only [ho] at hpa
      rw [← hp, ← ha]
      exact issuanceCycle_issues f st.vaultPath st.vaultArgs script fs pa hpa
  · intro st ho
    obtain ⟨hp, ha⟩ := startup_ok_request f env st ho
    refine ⟨startup_ok_valid f env st ho, ?_⟩
    intro env1 script fs
    simp only [mainIssuance, ho]
    rw [← hp, ← ha]
    exact issuanceCycle_head f st.vaultPath st.vaultArgs env1 script fs

/-- Witness for C10: scenario B sends `common_name` and
`ip_sans` under `pki/issue/server`. -/
theorem issuance_request_contract_witness :
    scenarioFlags.valid ∧
    (vaultArgs scenarioBoot.durationString scenarioFlags).map Prod.fst =
      ["common_name", "ip_sans"] ∧
    issues (mainIssuance scenarioFlags scenarioBoot [scenarioIter, scenarioIter]
      scenarioFS).events =
      [("pki/issue/server", [("common_name", "svc.example.com"), ("ip_sans", "127.0.0.1")]),
        ("pki/issue/server", [("common_name", "svc.example.com"), ("ip_sans", "127.0.0.1")])] :=
  ⟨by decide, (issuance_request_contract scenarioFlags scenarioBoot).1, by decide⟩

end Keepsake
